import Mathlib

/-!
Verification of the browseragentprotocol Python SDK protocol session engine:
the request/response correlation layer, connection lifecycle, notification
routing, error mapping, and transport reconnection policy, shallowly embedded
from `packages/python-sdk/src/browseragentprotocol/`.

JSON-compatible Python values are modelled by the inductive `JVal`; Python
dicts with string keys are insertion-ordered association lists.  Floating
point JSON numbers do not occur in any modelled code path and are omitted.
-/

namespace BAP

/-- A JSON-compatible Python value (None / bool / int / str / dict / list). -/
inductive JVal where
  | null : JVal
  | bool : Bool → JVal
  | int : Int → JVal
  | str : String → JVal
  | obj : List (String × JVal) → JVal
  | arr : List JVal → JVal
deriving Repr

/-- A Python `dict[str, Any]` as an association list (first binding wins,
as all modelled dicts are built without duplicate keys). -/
abbrev Dict := List (String × JVal)

/-- Key membership, Python `k in d`. -/
def hasKey (d : Dict) (k : String) : Bool :=
  d.any (fun p => p.1 == k)

/-- Python `d.get(k, default)`: the stored value when the key is present
(a stored `None` is returned as `JVal.null`, not as the default). -/
def dget (d : Dict) (k : String) (default : JVal) : JVal :=
  match d with
  | [] => default
  | (k', v) :: rest => if k' == k then v else dget rest k default

/-- Python `d.get(k)` observed through `is None` / truthiness: a stored
`None` is indistinguishable from a missing key, so both map to `none`. -/
def dgetOpt (d : Dict) (k : String) : Option JVal :=
  match dget d k JVal.null with
  | JVal.null => none
  | v => some v

/-- Python truthiness of a JSON-compatible value. -/
def truthy : JVal → Bool
  | JVal.null => false
  | JVal.bool b => b
  | JVal.int n => n != 0
  | JVal.str s => s != ""
  | JVal.obj f => !f.isEmpty
  | JVal.arr e => !e.isEmpty

/-- Truthiness of an optional value (`none` is Python `None`, falsy). -/
def truthyO : Option JVal → Bool
  | none => false
  | some v => truthy v

/-- An optional Python value stored into a dict (`None` becomes null). -/
def optVal : Option JVal → JVal
  | none => JVal.null
  | some v => v

/-- Python `str()` of a JSON-compatible value, used only inside
human-readable error messages (no claim depends on its exact form). -/
def pyStr : JVal → String
  | JVal.null => "None"
  | JVal.bool b => if b then "True" else "False"
  | JVal.int n => toString n
  | JVal.str s => s
  | JVal.obj _ => "{...}"
  | JVal.arr _ => "[...]"

/-- Python `x or y` on an optional value and an int fallback,
as in `retry_after_ms or 500` (`errors.py` line 545). -/
def pyOrInt (x : Option JVal) (fallback : Int) : JVal :=
  match x with
  | some v => if truthy v then v else JVal.int fallback
  | none => JVal.int fallback

/-! ## `types/protocol.py` -/

/-- `BAP_VERSION` (`types/protocol.py` line 15). -/
def BAP_VERSION : String := "0.2.0"

/-! The `ErrorCodes` table (`types/protocol.py` lines 28-72). -/

namespace ErrorCodes

def ParseError : Int := -32700
def InvalidRequest : Int := -32600
def MethodNotFound : Int := -32601
def InvalidParams : Int := -32602
def InternalError : Int := -32603
def ServerError : Int := -32000
def NotInitialized : Int := -32001
def AlreadyInitialized : Int := -32002
def BrowserNotLaunched : Int := -32010
def PageNotFound : Int := -32011
def ElementNotFound : Int := -32012
def ElementNotVisible : Int := -32013
def ElementNotEnabled : Int := -32014
def NavigationFailed : Int := -32015
def Timeout : Int := -32016
def TargetClosed : Int := -32017
def ExecutionContextDestroyed : Int := -32018
def SelectorAmbiguous : Int := -32020
def ActionFailed : Int := -32021
def InterceptedRequest : Int := -32022
def ContextNotFound : Int := -32023
def ResourceLimitExceeded : Int := -32024
def ApprovalDenied : Int := -32030
def ApprovalTimeout : Int := -32031
def ApprovalRequired : Int := -32032
def FrameNotFound : Int := -32040
def DomainNotAllowed : Int := -32041
def StreamNotFound : Int := -32050
def StreamCancelled : Int := -32051

end ErrorCodes

/-- `is_error_response` (`types/protocol.py` lines 158-167): the message has
an `"error"` key holding a dict whose `"code"` is an int and whose
`"message"` is a str. -/
def is_error_response (response : Dict) : Bool :=
  if !(hasKey response "error") then false
  else
    match dget response "error" JVal.null with
    | JVal.obj err =>
        (match dget err "code" JVal.null with
         | JVal.int _ => true
         | _ => false)
        &&
        (match dget err "message" JVal.null with
         | JVal.str _ => true
         | _ => false)
    | _ => false

/-- `create_request` (`types/protocol.py` lines 175-188); the `params`
key is omitted when `params is None`. -/
def create_request (id : Int) (method : String) (params : Option JVal) : Dict :=
  [("jsonrpc", JVal.str "2.0"), ("id", JVal.int id), ("method", JVal.str method)]
    ++ (match params with
        | some p => [("params", p)]
        | none => [])

/-! ## `errors.py`

`BAPError` carries the five attributes set by `BAPError.__init__`
(`errors.py` lines 15-29).  Each exception subclass becomes a constructor
function with the same name; only the attribute values matter here, and the
subclass identity is recoverable from the code, so no tag is kept.
`retryAfterMs` is `Option JVal` because `from_dict` stores whatever the
wire carried (`data.get("retryAfterMs")`, collapsing JSON null to `None`).
-/

structure BAPError where
  code : Int
  message : String
  retryable : Bool
  retryAfterMs : Option JVal
  details : Option Dict
deriving Repr

/-- The bare `BAPError(code, message, retryable=…, retry_after_ms=…,
details=…)` constructor (`errors.py` lines 15-29). -/
def mkBAPError (code : Int) (message : String) (retryable : Bool)
    (retryAfterMs : Option JVal) (details : Option Dict) : BAPError :=
  ⟨code, message, retryable, retryAfterMs, details⟩

/-- `BAPParseError` (`errors.py` lines 113-117). -/
def BAPParseError (message : String) : BAPError :=
  mkBAPError ErrorCodes.ParseError message false none none

/-- `BAPMethodNotFoundError` (`errors.py` lines 127-131). -/
def BAPMethodNotFoundError (method : String) : BAPError :=
  mkBAPError ErrorCodes.MethodNotFound ("Method not found: " ++ method) false none none

/-- `BAPNotInitializedError` (`errors.py` lines 146-153). -/
def BAPNotInitializedError : BAPError :=
  mkBAPError ErrorCodes.NotInitialized
    "Client not initialized. Call connect() first." false none none

/-- `BAPAlreadyInitializedError` (`errors.py` lines 156-160). -/
def BAPAlreadyInitializedError : BAPError :=
  mkBAPError ErrorCodes.AlreadyInitialized "Client already initialized" false none none

/-- `BAPBrowserNotLaunchedError` (`errors.py` lines 168-175). -/
def BAPBrowserNotLaunchedError : BAPError :=
  mkBAPError ErrorCodes.BrowserNotLaunched
    "Browser not launched. Call launch() first." false none none

/-- `BAPPageNotFoundError` (`errors.py` lines 178-186). -/
def BAPPageNotFoundError (pageId : JVal) : BAPError :=
  mkBAPError ErrorCodes.PageNotFound ("Page not found: " ++ pyStr pageId)
    false none (some [("pageId", pageId)])

/-- `BAPElementNotFoundError` (`errors.py` lines 194-210). -/
def BAPElementNotFoundError (selector : Option JVal) (retryable : Bool)
    (retryAfterMs : JVal) : BAPError :=
  mkBAPError ErrorCodes.ElementNotFound "Element not found" retryable
    (some retryAfterMs) (some [("selector", optVal selector)])

/-- `BAPElementNotVisibleError` (`errors.py` lines 213-223). -/
def BAPElementNotVisibleError (selector : Option JVal) : BAPError :=
  mkBAPError ErrorCodes.ElementNotVisible "Element not visible" true
    (some (JVal.int 500)) (some [("selector", optVal selector)])

/-- `BAPElementNotEnabledError` (`errors.py` lines 226-236). -/
def BAPElementNotEnabledError (selector : Option JVal) : BAPError :=
  mkBAPError ErrorCodes.ElementNotEnabled "Element not enabled" true
    (some (JVal.int 500)) (some [("selector", optVal selector)])

/-- `BAPSelectorAmbiguousError` (`errors.py` lines 239-247). -/
def BAPSelectorAmbiguousError (selector : Option JVal) (count : JVal) : BAPError :=
  mkBAPError ErrorCodes.SelectorAmbiguous
    ("Selector matched " ++ pyStr count ++ " elements, expected 1")
    false none (some [("selector", optVal selector), ("count", count)])

/-- `BAPNavigationError` (`errors.py` lines 255-277): `url` and `status`
enter `details` only when truthy, and an empty `details` dict becomes
`None` (`details or None`). -/
def BAPNavigationError (message : String) (url status : Option JVal)
    (retryable : Bool) : BAPError :=
  let details : Dict :=
    (if truthyO url then [("url", optVal url)] else [])
      ++ (if truthyO status then [("status", optVal status)] else [])
  mkBAPError ErrorCodes.NavigationFailed message retryable
    (some (JVal.int 1000)) (if details.isEmpty then none else some details)

/-- `BAPTimeoutError` (`errors.py` lines 285-295):
`details={"timeout": timeout} if timeout else None`. -/
def BAPTimeoutError (message : String) (timeout : Option JVal) : BAPError :=
  mkBAPError ErrorCodes.Timeout message true (some (JVal.int 0))
    (match timeout with
     | some t => if truthy t then some [("timeout", t)] else none
     | none => none)

/-- `BAPActionError` (`errors.py` lines 303-322): `selector` enters
`details` only when truthy. -/
def BAPActionError (action : JVal) (message : String) (selector : Option JVal)
    (retryable : Bool) : BAPError :=
  let details : Dict :=
    [("action", action)]
      ++ (if truthyO selector then [("selector", optVal selector)] else [])
  mkBAPError ErrorCodes.ActionFailed (pyStr action ++ " failed: " ++ message)
    retryable none (some details)

/-- `BAPTargetClosedError` (`errors.py` lines 330-338). -/
def BAPTargetClosedError (target : JVal) : BAPError :=
  mkBAPError ErrorCodes.TargetClosed (pyStr target ++ " was closed") false none none

/-- `BAPExecutionContextDestroyedError` (`errors.py` lines 341-350). -/
def BAPExecutionContextDestroyedError : BAPError :=
  mkBAPError ErrorCodes.ExecutionContextDestroyed
    "Execution context was destroyed" true (some (JVal.int 100)) none

/-- `BAPContextNotFoundError` (`errors.py` lines 358-366). -/
def BAPContextNotFoundError (contextId : JVal) : BAPError :=
  mkBAPError ErrorCodes.ContextNotFound ("Context not found: " ++ pyStr contextId)
    false none (some [("contextId", contextId)])

/-- `BAPResourceLimitExceededError` (`errors.py` lines 369-377). -/
def BAPResourceLimitExceededError (resource limit current : JVal) : BAPError :=
  mkBAPError ErrorCodes.ResourceLimitExceeded
    ("Resource limit exceeded: " ++ pyStr resource ++ " (max: " ++ pyStr limit
      ++ ", current: " ++ pyStr current ++ ")")
    false none
    (some [("resource", resource), ("limit", limit), ("current", current)])

/-- `BAPApprovalDeniedError` (`errors.py` lines 385-394): `details` is the
two-key dict when `rule or reason` is truthy, else `None`. -/
def BAPApprovalDeniedError (reason rule : Option JVal) : BAPError :=
  mkBAPError ErrorCodes.ApprovalDenied
    (if truthyO reason then "Approval denied: " ++ pyStr (optVal reason)
     else "Approval denied")
    false none
    (if truthyO rule || truthyO reason then
       some [("rule", optVal rule), ("reason", optVal reason)]
     else none)

/-- `BAPApprovalTimeoutError` (`errors.py` lines 397-406). -/
def BAPApprovalTimeoutError (timeout : JVal) : BAPError :=
  mkBAPError ErrorCodes.ApprovalTimeout
    ("Approval timed out after " ++ pyStr timeout ++ "ms")
    true none (some [("timeout", timeout)])

/-- `BAPApprovalRequiredError` (`errors.py` lines 409-417). -/
def BAPApprovalRequiredError (requestId rule : JVal) : BAPError :=
  mkBAPError ErrorCodes.ApprovalRequired
    ("Approval required for action (rule: " ++ pyStr rule ++ ")")
    false none (some [("requestId", requestId), ("rule", rule)])

/-- `BAPFrameNotFoundError` (`errors.py` lines 425-434): message and
`details` both depend on the truthiness of `identifier`. -/
def BAPFrameNotFoundError (identifier : Option JVal) : BAPError :=
  mkBAPError ErrorCodes.FrameNotFound
    (if truthyO identifier then "Frame not found: " ++ pyStr (optVal identifier)
     else "Frame not found")
    false none
    (if truthyO identifier then some [("identifier", optVal identifier)] else none)

/-- `BAPDomainNotAllowedError` (`errors.py` lines 437-445). -/
def BAPDomainNotAllowedError (domain : JVal) : BAPError :=
  mkBAPError ErrorCodes.DomainNotAllowed ("Domain not allowed: " ++ pyStr domain)
    false none (some [("domain", domain)])

/-- `BAPStreamNotFoundError` (`errors.py` lines 453-461). -/
def BAPStreamNotFoundError (streamId : JVal) : BAPError :=
  mkBAPError ErrorCodes.StreamNotFound ("Stream not found: " ++ pyStr streamId)
    false none (some [("streamId", streamId)])

/-- `BAPStreamCancelledError` (`errors.py` lines 464-472). -/
def BAPStreamCancelledError (streamId : JVal) : BAPError :=
  mkBAPError ErrorCodes.StreamCancelled ("Stream was cancelled: " ++ pyStr streamId)
    false none (some [("streamId", streamId)])

/-- `details.get(key)` guarded by `if details else None`, the pattern used
throughout `create_error_from_code` for optional detail fields. -/
def detGetOpt (details : Option Dict) (key : String) : Option JVal :=
  match details with
  | some d => dgetOpt d key
  | none => none

/-- `details.get(key, default) if details else default`, the pattern used
in `create_error_from_code` for defaulted detail fields (a stored JSON
null is returned as null, exactly as Python's two-argument `get`). -/
def detGetD (details : Option Dict) (key : String) (default : JVal) : JVal :=
  match details with
  | some d => dget d key default
  | none => default

/-- `create_error_from_code` (`errors.py` lines 480-595).  The source first
tests `code in error_classes` and then runs an inner `if/elif` chain that
returns for twelve of the fourteen listed codes; `InvalidRequest` and
`InvalidParams` are in `error_classes` but have no `elif` arm, so control
falls through past the "other specific cases" chain to the final default
`BAPError`.  The flattened chain below reproduces that effective control
flow branch for branch. -/
def create_error_from_code (code : Int) (message : String) (retryable : Bool)
    (retry_after_ms : Option JVal) (details : Option Dict) : BAPError :=
  -- inner chain of the `code in error_classes` block (lines 510-536)
  if code = ErrorCodes.ParseError then BAPParseError message
  else if code = ErrorCodes.MethodNotFound then BAPMethodNotFoundError message
  else if code = ErrorCodes.NotInitialized then BAPNotInitializedError
  else if code = ErrorCodes.AlreadyInitialized then BAPAlreadyInitializedError
  else if code = ErrorCodes.BrowserNotLaunched then BAPBrowserNotLaunchedError
  else if code = ErrorCodes.Timeout then
    BAPTimeoutError message (detGetOpt details "timeout")
  else if code = ErrorCodes.TargetClosed then
    BAPTargetClosedError (detGetD details "target" (JVal.str "target"))
  else if code = ErrorCodes.ExecutionContextDestroyed then
    BAPExecutionContextDestroyedError
  else if code = ErrorCodes.ApprovalDenied then
    BAPApprovalDeniedError (detGetOpt details "reason") (detGetOpt details "rule")
  else if code = ErrorCodes.FrameNotFound then
    BAPFrameNotFoundError (detGetOpt details "identifier")
  else if code = ErrorCodes.StreamNotFound then
    BAPStreamNotFoundError (detGetD details "streamId" (JVal.str "unknown"))
  else if code = ErrorCodes.StreamCancelled then
    BAPStreamCancelledError (detGetD details "streamId" (JVal.str "unknown"))
  -- "other specific cases" chain (lines 539-586)
  else if code = ErrorCodes.PageNotFound then
    BAPPageNotFoundError (detGetD details "pageId" (JVal.str "unknown"))
  else if code = ErrorCodes.ElementNotFound then
    BAPElementNotFoundError (detGetOpt details "selector") retryable
      (pyOrInt retry_after_ms 500)
  else if code = ErrorCodes.ElementNotVisible then
    BAPElementNotVisibleError (detGetOpt details "selector")
  else if code = ErrorCodes.ElementNotEnabled then
    BAPElementNotEnabledError (detGetOpt details "selector")
  else if code = ErrorCodes.SelectorAmbiguous then
    BAPSelectorAmbiguousError (detGetOpt details "selector")
      (detGetD details "count" (JVal.int 0))
  else if code = ErrorCodes.NavigationFailed then
    BAPNavigationError message (detGetOpt details "url") (detGetOpt details "status")
      retryable
  else if code = ErrorCodes.ActionFailed then
    BAPActionError (detGetD details "action" (JVal.str "action")) message
      (detGetOpt details "selector") retryable
  else if code = ErrorCodes.ContextNotFound then
    BAPContextNotFoundError (detGetD details "contextId" (JVal.str "unknown"))
  else if code = ErrorCodes.ResourceLimitExceeded then
    BAPResourceLimitExceededError (detGetD details "resource" (JVal.str "resource"))
      (detGetD details "limit" (JVal.int 0)) (detGetD details "current" (JVal.int 0))
  else if code = ErrorCodes.ApprovalTimeout then
    BAPApprovalTimeoutError (detGetD details "timeout" (JVal.int 60000))
  else if code = ErrorCodes.ApprovalRequired then
    BAPApprovalRequiredError (detGetD details "requestId" (JVal.str "unknown"))
      (detGetD details "rule" (JVal.str "unknown"))
  else if code = ErrorCodes.DomainNotAllowed then
    BAPDomainNotAllowedError (detGetD details "domain" (JVal.str "unknown"))
  -- default: base BAPError retaining all fields (lines 589-595)
  else mkBAPError code message retryable retry_after_ms details

/-- `BAPError.to_dict` (`errors.py` lines 66-79): the wire error object;
`retryAfterMs` and `details` are emitted only when not `None`. -/
def BAPError.to_dict (e : BAPError) : Dict :=
  [("code", JVal.int e.code), ("message", JVal.str e.message),
   ("data", JVal.obj
     ([("retryable", JVal.bool e.retryable)]
       ++ (match e.retryAfterMs with
           | some v => [("retryAfterMs", v)]
           | none => [])
       ++ (match e.details with
           | some d => [("details", JVal.obj d)]
           | none => [])))]

/-- `BAPError.from_dict` (`errors.py` lines 51-64).  The model restricts
the extracted `code`, `message`, `data`, `retryable` and `details` fields
to their documented wire types (int / str / object / bool / object),
falling back to the same defaults Python uses for a missing key; wire
messages carrying other types for these fields are outside the model
(they never arise from `to_dict` output, which is all the claims quantify
over). -/
def BAPError.from_dict (error_dict : Dict) : BAPError :=
  let code : Int :=
    match dget error_dict "code" (JVal.int ErrorCodes.InternalError) with
    | JVal.int n => n
    | _ => ErrorCodes.InternalError
  let message : String :=
    match dget error_dict "message" (JVal.str "Unknown error") with
    | JVal.str s => s
    | _ => "Unknown error"
  let data : Dict :=
    match dget error_dict "data" (JVal.obj []) with
    | JVal.obj f => f
    | _ => []
  let retryable : Bool :=
    match dget data "retryable" (JVal.bool false) with
    | JVal.bool b => b
    | _ => false
  let retry_after_ms : Option JVal := dgetOpt data "retryAfterMs"
  let details : Option Dict :=
    match dgetOpt data "details" with
    | some (JVal.obj f) => some f
    | _ => none
  create_error_from_code code message retryable retry_after_ms details

/-! ## `client.py`: request dispatcher state

`BAPClient.__init__` (lines 142-148) sets `_request_id = 0`, an empty
`_pending_requests` table, `_initialized = False`, and clears the
capability snapshot and active page.  A pending entry holds the
completion future and its timeout timer; the method name captured by the
`on_timeout` closure (line 1453) is stored alongside, since it determines
the timeout error message. -/

/-- The settlement state of an `asyncio.Future`. -/
inductive FutureState where
  | pending : FutureState
  | resolved : JVal → FutureState
  | rejected : BAPError → FutureState
deriving Repr

/-- One `_pending_requests` entry: `(future, timer)` plus the method name
captured by the request's `on_timeout` closure. -/
structure PendingEntry where
  method : String
  future : FutureState
  timerActive : Bool
deriving Repr

/-- The dispatcher-relevant mutable state of a `BAPClient`. -/
structure ClientState where
  requestId : Int
  pending : List (Int × PendingEntry)
  initialized : Bool
  capabilities : Option JVal
  activePage : Option String
  transportOpen : Bool
deriving Repr

/-- The state of a freshly constructed client (`__init__` lines 142-148). -/
def initState : ClientState :=
  { requestId := 0, pending := [], initialized := false,
    capabilities := none, activePage := none, transportOpen := false }

/-- Lookup in the pending table (Python dict keyed by int request ids). -/
def lookupPending : List (Int × PendingEntry) → Int → Option PendingEntry
  | [], _ => none
  | (k, e) :: rest, i => if k = i then some e else lookupPending rest i

/-- `self._pending_requests.pop(request_id)`'s effect on the table. -/
def removePending (t : List (Int × PendingEntry)) (i : Int) : List (Int × PendingEntry) :=
  t.filter (fun p => !(p.1 == i))

/-- How one settled call ended: with a result payload or a typed error. -/
inductive SettleVal where
  | ok : JVal → SettleVal
  | err : BAPError → SettleVal
deriving Repr

/-- Observable events of the dispatcher model. -/
inductive Ev where
  | sent : Dict → Ev
  | settled : Int → SettleVal → Ev
  | diagnostic : String → Ev
  | sendRaised : Int → Ev
deriving Repr

/-- The outcome of `_handle_response` on one inbound message. -/
inductive RespOutcome where
  | discardedUnknown : RespOutcome
  | discardedDone : Int → RespOutcome
  | settledResult : Int → JVal → RespOutcome
  | settledError : Int → BAPError → RespOutcome
deriving Repr

/-- `_handle_response` (`client.py` lines 1359-1377): look up the inbound
id in the pending table; an unknown id (including a non-integer or null
id, which can never equal a client-issued int key) is logged and
discarded; a known id is popped, its timer cancelled, and its future
settled with the result payload or the mapped error unless already done. -/
def handleResponse (s : ClientState) (data : Dict) : ClientState × RespOutcome :=
  match dgetOpt data "id" with
  | some (JVal.int rid) =>
    match lookupPending s.pending rid with
    | none => (s, RespOutcome.discardedUnknown)
    | some entry =>
      let s' := { s with pending := removePending s.pending rid }
      match entry.future with
      | FutureState.pending =>
        if is_error_response data then
          let errObj : Dict :=
            match dget data "error" JVal.null with
            | JVal.obj f => f
            | _ => []
          (s', RespOutcome.settledError rid (BAPError.from_dict errObj))
        else (s', RespOutcome.settledResult rid (dget data "result" JVal.null))
      | _ => (s', RespOutcome.discardedDone rid)
  | _ => (s, RespOutcome.discardedUnknown)

/-- The non-retryable timeout error raised by `on_timeout`
(`client.py` lines 1457-1463) — retryable is `True` there. -/
def timeoutError (method : String) : BAPError :=
  mkBAPError ErrorCodes.Timeout ("Request timeout: " ++ method) true none none

/-- The `on_timeout` callback for id `rid` (`client.py` lines 1453-1463):
if the id is still pending, pop it and settle the future with a retryable
timeout error naming the method. -/
def onTimeout (s : ClientState) (rid : Int) : ClientState × List Ev :=
  match lookupPending s.pending rid with
  | some entry =>
    let s' := { s with pending := removePending s.pending rid }
    match entry.future with
    | FutureState.pending => (s', [Ev.settled rid (SettleVal.err (timeoutError entry.method))])
    | _ => (s', [])
  | none => (s, [])

/-- `_request` (`client.py` lines 1442-1477) up to the `await future`:
allocate the next id, build the envelope, register the pending entry with
an armed timer, and send.  A send failure pops the fresh entry, cancels
its timer and re-raises to the caller. -/
def requestStep (s : ClientState) (method : String) (params : JVal)
    (sendOk : Bool) : ClientState × List Ev :=
  let rid := s.requestId + 1
  let registered := s.pending ++ [(rid, ⟨method, FutureState.pending, true⟩)]
  if sendOk then
    ({ s with requestId := rid, pending := registered },
     [Ev.sent (create_request rid method (some params))])
  else
    ({ s with requestId := rid, pending := removePending registered rid },
     [Ev.sendRaised rid])

/-- The "Client closed" error (`client.py` line 262): a plain `BAPError`
with the ServerError code, hence `retryable=False` by default. -/
def clientClosedError : BAPError :=
  mkBAPError ErrorCodes.ServerError "Client closed" false none none

/-- The teardown phase of `close()` (`client.py` lines 253-263): close the
transport, reset `_initialized`, drop the capability snapshot, then
cancel every pending timer, settle every not-yet-done future with the
client-closed error, and clear the table.  The preceding best-effort
`shutdown` call (lines 247-251) is an ordinary `_request` whose own entry
settles or is cleaned up inside `_request` before this phase runs; in the
operation language below it is represented by a separate request
operation.  `_active_page` is not touched anywhere in `close()`. -/
def closeStep (s : ClientState) : ClientState × List Ev :=
  ({ s with pending := [], initialized := false, capabilities := none,
            transportOpen := false },
   s.pending.filterMap (fun p =>
     match p.2.future with
     | FutureState.pending => some (Ev.settled p.1 (SettleVal.err clientClosedError))
     | _ => none))

/-- One dispatcher-affecting operation on the client. -/
inductive Op where
  | request : String → JVal → Bool → Op
  | inbound : Dict → Op
  | timerFire : Int → Op
  | closeTeardown : Op

/-- Events produced by `_handle_response`'s outcome. -/
def respEvents : RespOutcome → List Ev
  | RespOutcome.discardedUnknown => [Ev.diagnostic "Received response for unknown request"]
  | RespOutcome.discardedDone _ => []
  | RespOutcome.settledResult rid v => [Ev.settled rid (SettleVal.ok v)]
  | RespOutcome.settledError rid e => [Ev.settled rid (SettleVal.err e)]

/-- One step of the client: notifications (`"method"` without `"id"`,
line 1356) and unclassifiable messages never touch dispatcher state. -/
def step (s : ClientState) (op : Op) : ClientState × List Ev :=
  match op with
  | Op.request m p ok => requestStep s m p ok
  | Op.inbound data =>
      if hasKey data "id" then
        let r := handleResponse s data
        (r.1, respEvents r.2)
      else (s, [])
  | Op.timerFire rid => onTimeout s rid
  | Op.closeTeardown => closeStep s

/-- Run a sequence of operations, accumulating events in order. -/
def run (s : ClientState) : List Op → ClientState × List Ev
  | [] => (s, [])
  | op :: ops =>
    let r := step s op
    let rest := run r.1 ops
    (rest.1, r.2 ++ rest.2)

/-- How many settlement events a trace contains for correlation id `i`. -/
def settleCount (evs : List Ev) (i : Int) : Nat :=
  evs.countP (fun e =>
    match e with
    | Ev.settled j _ => j == i
    | _ => false)

/-- The correlation ids allocated to the successive `_request` calls of an
operation sequence, in issue order (line 1444: `self._request_id += 1`). -/
def assignedIds (s : ClientState) : List Op → List Int
  | [] => []
  | Op.request m p ok :: ops =>
      (s.requestId + 1) :: assignedIds (step s (Op.request m p ok)).1 ops
  | Op.inbound data :: ops => assignedIds (step s (Op.inbound data)).1 ops
  | Op.timerFire rid :: ops => assignedIds (step s (Op.timerFire rid)).1 ops
  | Op.closeTeardown :: ops => assignedIds (step s Op.closeTeardown).1 ops

/-! ## `client.py`: notification router

Handlers are modelled as functions returning `Except String Unit`; a
`.error` value is a raised exception.  Every invocation in the source is
wrapped in its own `try/except` (`client.py` lines 1387-1391, 1396-1400,
1406-1410, 1420-1424), so a raising handler contributes an error outcome
and the surrounding `for` loop continues with the next handler; the
dispatch of a whole handler list is therefore a `map` over it. -/

/-- `StreamChunkParams` (`types/methods.py` lines 307-316). -/
structure StreamChunk where
  streamId : String
  index : Int
  data : String
  offset : Int
  size : Int
deriving Repr

/-- `StreamEndParams` (`types/methods.py` lines 319-327). -/
structure StreamEnd where
  streamId : String
  totalChunks : Int
  totalSize : Int
  checksum : Option String
deriving Repr

/-- `ApprovalRequiredParams` (`types/methods.py` lines 360-369); the
nested `ApprovalContext` model is kept as a raw value — no claim
inspects it. -/
structure Approval where
  requestId : String
  originalRequest : Dict
  rule : String
  context : JVal
  expiresAt : Int
deriving Repr

/-- A required pydantic field that may be populated by alias or by field
name (`model_config = {"populate_by_name": True}`), validated as str. -/
def fieldStr (d : Dict) (aliasKey fieldName : String) : Except String String :=
  match (if hasKey d aliasKey then some (dget d aliasKey JVal.null)
         else if hasKey d fieldName then some (dget d fieldName JVal.null)
         else none) with
  | some (JVal.str s) => Except.ok s
  | _ => Except.error ("validation error: " ++ aliasKey)

/-- A required pydantic int field, by alias or field name. -/
def fieldInt (d : Dict) (aliasKey fieldName : String) : Except String Int :=
  match (if hasKey d aliasKey then some (dget d aliasKey JVal.null)
         else if hasKey d fieldName then some (dget d fieldName JVal.null)
         else none) with
  | some (JVal.int n) => Except.ok n
  | _ => Except.error ("validation error: " ++ aliasKey)

/-- `StreamChunkParams.model_validate(params)` (`client.py` line 1386):
raises (returns `.error`) unless `params` is a dict carrying the five
required fields with their declared types. -/
def parseStreamChunk (params : JVal) : Except String StreamChunk :=
  match params with
  | JVal.obj d => do
    let sid ← fieldStr d "streamId" "stream_id"
    let idx ← fieldInt d "index" "index"
    let dat ← fieldStr d "data" "data"
    let off ← fieldInt d "offset" "offset"
    let sz ← fieldInt d "size" "size"
    Except.ok ⟨sid, idx, dat, off, sz⟩
  | _ => Except.error "validation error: not a dict"

/-- `StreamEndParams.model_validate(params)` (`client.py` line 1395). -/
def parseStreamEnd (params : JVal) : Except String StreamEnd :=
  match params with
  | JVal.obj d => do
    let sid ← fieldStr d "streamId" "stream_id"
    let tc ← fieldInt d "totalChunks" "total_chunks"
    let ts ← fieldInt d "totalSize" "total_size"
    let ck ← (match dgetOpt d "checksum" with
              | some (JVal.str s) => Except.ok (some s)
              | some _ => Except.error "validation error: checksum"
              | none => Except.ok none)
    Except.ok ⟨sid, tc, ts, ck⟩
  | _ => Except.error "validation error: not a dict"

/-- `ApprovalRequiredParams.model_validate(params)` (`client.py` line 1405). -/
def parseApproval (params : JVal) : Except String Approval :=
  match params with
  | JVal.obj d => do
    let rid ← fieldStr d "requestId" "request_id"
    let orq ← (match (if hasKey d "originalRequest" then some (dget d "originalRequest" JVal.null)
                      else if hasKey d "original_request" then some (dget d "original_request" JVal.null)
                      else none) with
               | some (JVal.obj f) => Except.ok f
               | _ => Except.error "validation error: originalRequest")
    let rl ← fieldStr d "rule" "rule"
    let ctx ← (if hasKey d "context" then Except.ok (dget d "context" JVal.null)
               else Except.error "validation error: context")
    let exp ← fieldInt d "expiresAt" "expires_at"
    Except.ok ⟨rid, orq, rl, ctx, exp⟩
  | _ => Except.error "validation error: not a dict"

/-- The handler registries of one client.  `eventHandlers` is the
`_event_handlers` dict (`__init__` lines 151-159 seeds seven categories;
`on` at lines 1290-1292 may add further keys). -/
structure Handlers where
  eventHandlers : List (String × List (JVal → Except String Unit))
  streamChunkHandlers : List (StreamChunk → Except String Unit)
  streamEndHandlers : List (StreamEnd → Except String Unit)
  approvalHandlers : List (Approval → Except String Unit)

/-- Dict lookup in the event-handler registry (`event_type in
self._event_handlers`, line 1419). -/
def lookupHandlers : List (String × List (JVal → Except String Unit)) → String →
    Option (List (JVal → Except String Unit))
  | [], _ => none
  | (k, hs) :: rest, cat => if k == cat then some hs else lookupHandlers rest cat

/-- What `_handle_notification` did with one message. -/
inductive NotifyResult where
  | streamChunk : StreamChunk → List (Except String Unit) → NotifyResult
  | streamEnd : StreamEnd → List (Except String Unit) → NotifyResult
  | approval : Approval → List (Except String Unit) → NotifyResult
  | event : String → JVal → List (Except String Unit) → NotifyResult
  | unhandledEvent : String → NotifyResult
  | raisedValidation : String → NotifyResult

/-- `_handle_notification` (`client.py` lines 1379-1424): the three
reserved methods dispatch to their dedicated handler lists and return;
any other method is reduced to an event category (stripping an
`"event/"` namespace, line 1414-1417) and fanned out to the general
registry when that category is present, else silently ignored. -/
def handleNotification (h : Handlers) (data : Dict) : NotifyResult :=
  let method : String :=
    match dget data "method" (JVal.str "") with
    | JVal.str m => m
    | _ => ""
  let params : JVal := dget data "params" (JVal.obj [])
  if method == "stream/chunk" then
    match parseStreamChunk params with
    | Except.ok c => NotifyResult.streamChunk c (h.streamChunkHandlers.map (fun f => f c))
    | Except.error e => NotifyResult.raisedValidation e
  else if method == "stream/end" then
    match parseStreamEnd params with
    | Except.ok c => NotifyResult.streamEnd c (h.streamEndHandlers.map (fun f => f c))
    | Except.error e => NotifyResult.raisedValidation e
  else if method == "approval/required" then
    match parseApproval params with
    | Except.ok c => NotifyResult.approval c (h.approvalHandlers.map (fun f => f c))
    | Except.error e => NotifyResult.raisedValidation e
  else
    let eventType : String :=
      if method.startsWith "event/" then (method.splitOn "/").getD 1 ""
      else method
    match lookupHandlers h.eventHandlers eventType with
    | some hs => NotifyResult.event eventType params (hs.map (fun f => f params))
    | none => NotifyResult.unhandledEvent eventType

/-- The classification performed by `_handle_message`. -/
inductive MsgAction where
  | response : ClientState × RespOutcome → MsgAction
  | notify : NotifyResult → MsgAction
  | ignored : MsgAction

/-- `_handle_message` (`client.py` lines 1345-1357) after JSON parsing
(a parse failure is logged and never reaches this classification):
`"id"` key present → response path, else `"method"` key present →
notification path, else nothing happens. -/
def handleMessage (s : ClientState) (h : Handlers) (data : Dict) : MsgAction :=
  if hasKey data "id" then MsgAction.response (handleResponse s data)
  else if hasKey data "method" then MsgAction.notify (handleNotification h data)
  else MsgAction.ignored

/-! ## `transport.py`: reconnection policy

`_attempt_reconnect` (lines 113-146) loops while
`_reconnect_attempts < max_reconnect_attempts`, breaking on
`_is_closing`; each iteration increments the counter, computes
`delay = reconnect_delay * 2^(attempts-1)`, fires `on_reconnecting`,
sleeps, and tries `connect()`; a successful connect fires
`on_reconnected` and returns, any other exit raises.  `connectOk k` says
whether the `k`-th reconnect attempt's `connect()` succeeds.  The
`_is_reconnecting` re-entry guard serializes concurrent invocations and
has no effect on this single-flow model. -/

/-- The reconnect loop from a given attempt counter: returns the list of
`(attempt number, pre-attempt delay)` pairs announced via
`on_reconnecting`, and whether reconnection succeeded (`false` means the
final `raise`, which the receive loop converts into `on_close`). -/
def attemptReconnectLoop (connectOk : Nat → Bool) (maxAttempts : Nat)
    (baseDelay : ℚ) (isClosing : Bool) (attempts : Nat) :
    List (Nat × ℚ) × Bool :=
  if attempts < maxAttempts then
    if isClosing then ([], false)
    else
      let a := attempts + 1
      let delay := baseDelay * 2 ^ (a - 1)
      if connectOk a then ([(a, delay)], true)
      else
        let rest := attemptReconnectLoop connectOk maxAttempts baseDelay isClosing a
        ((a, delay) :: rest.1, rest.2)
  else ([], false)
termination_by maxAttempts - attempts
decreasing_by omega

/-- The `finally` block of `_receive_loop` (`transport.py` lines
103-111): with auto-reconnect on and no explicit close in progress, run
the reconnect loop and fire `on_close` exactly when it raises; otherwise
fire `on_close` directly.  Returns the reconnect trace and whether
`on_close` fired. -/
def receiveLoopEnd (autoReconnect isClosing : Bool) (connectOk : Nat → Bool)
    (maxAttempts : Nat) (baseDelay : ℚ) : List (Nat × ℚ) × Bool :=
  if autoReconnect && !isClosing then
    let r := attemptReconnectLoop connectOk maxAttempts baseDelay isClosing 0
    (r.1, !r.2)
  else ([], true)

/-! ## `client.py`: `connect()`

`connect()` (lines 190-243) opens the transport, issues the
`initialize` request, validates the server's protocol version, records
capabilities, sends the `notifications/initialized` notification and the
`events/subscribe` request.  The model takes the server's `initialize`
result as input and assumes the transport connect, the initialize
exchange and subsequent sends succeed, which is the scenario the version
claims quantify over.  No path of `connect()` closes the transport. -/

/-- The `initialize` request sent by `connect()` (lines 199-213), with
the constructor-default client name and version. -/
def initializeRequest (events : List String) : Dict :=
  create_request 1 "initialize" (some (JVal.obj
    [("protocolVersion", JVal.str BAP_VERSION),
     ("clientInfo", JVal.obj
       [("name", JVal.str "bap-client-python"), ("version", JVal.str "0.2.0")]),
     ("capabilities", JVal.obj
       [("events", JVal.arr (events.map JVal.str)),
        ("streaming", JVal.bool false),
        ("compression", JVal.bool false)])]))

/-- The `notifications/initialized` notification (`_notify`, lines
1479-1487, called at line 237 with no params). -/
def initializedNotif : Dict :=
  [("jsonrpc", JVal.str "2.0"), ("method", JVal.str "notifications/initialized")]

/-- The `events/subscribe` request (line 241); it is the second call on a
fresh client, hence correlation id 2. -/
def subscribeRequest (events : List String) : Dict :=
  create_request 2 "events/subscribe"
    (some (JVal.obj [("events", JVal.arr (events.map JVal.str))]))

/-- How `connect()` ended. -/
inductive ConnectOutcome where
  | ok : ConnectOutcome
  | raisedVersionMismatch : BAPError → ConnectOutcome
  | raisedBadVersionString : ConnectOutcome
deriving Repr

/-- The observable result of one `connect()` run. -/
structure ConnectRes where
  sent : List Dict
  outcome : ConnectOutcome
  initialized : Bool
  capabilities : Option JVal
  warnedOlderMinor : Bool
  transportOpen : Bool

/-- `str.split(sep)` for a one-character separator, over the character
list (`"".split(".") == [""]`, matching Python). -/
def splitOnChar (sep : Char) : List Char → List (List Char)
  | [] => [[]]
  | c :: rest =>
    match splitOnChar sep rest with
    | [] => [[c]]
    | g :: gs => if c == sep then [] :: g :: gs else (c :: g) :: gs

/-- Accumulate a decimal numeral; `none` on a non-digit character. -/
def natOfDigitsAux : List Char → Nat → Option Nat
  | [], acc => some acc
  | c :: cs, acc =>
    if c.isDigit then natOfDigitsAux cs (acc * 10 + (c.toNat - 48))
    else none

/-- Python `int(x)` on a canonical decimal string (optional leading
minus, at least one digit); `none` means `int()` raises `ValueError`. -/
def pyIntOfChars : List Char → Option Int
  | [] => none
  | c :: cs =>
    if c == '-' then
      match cs with
      | [] => none
      | _ => (natOfDigitsAux cs 0).map (fun n => -(n : Int))
    else (natOfDigitsAux (c :: cs) 0).map (fun n => (n : Int))

/-- `[int(x) for x in version.split(".")]` (lines 217-218); `none` when
some component is not an integer literal, in which case Python's
`int()` raises `ValueError` out of `connect()`. -/
def parseVersionParts (v : String) : Option (List Int) :=
  (splitOnChar '.' v.data).mapM pyIntOfChars

/-- The version-mismatch error raised at lines 221-225: a plain
`BAPError`, hence `retryable=False`. -/
def versionMismatchError (serverVersion : String) : BAPError :=
  mkBAPError ErrorCodes.InvalidRequest
    ("Protocol version mismatch: client=" ++ BAP_VERSION ++ ", server="
      ++ serverVersion ++ ". Major version must match.")
    false none none

/-- `result.get("protocolVersion", "0.0.0")` (line 216); a non-string
value would make `.split` raise and is outside the model. -/
def serverVersionOf (initResult : Dict) : String :=
  match dget initResult "protocolVersion" (JVal.str "0.0.0") with
  | JVal.str s => s
  | _ => "0.0.0"

/-- `connect()` from the transport being open and the server's
`initialize` result `initResult` in hand (lines 215-243). -/
def connectModel (events : List String) (initResult : Dict) : ConnectRes :=
  let serverVersion : String := serverVersionOf initResult
  match parseVersionParts serverVersion, parseVersionParts BAP_VERSION with
  | some serverParts, some clientParts =>
    match serverParts.get? 0, clientParts.get? 0 with
    | some smaj, some cmaj =>
      if smaj ≠ cmaj then
        { sent := [initializeRequest events],
          outcome := ConnectOutcome.raisedVersionMismatch (versionMismatchError serverVersion),
          initialized := false, capabilities := none,
          warnedOlderMinor := false, transportOpen := true }
      else
        match serverParts.get? 1, clientParts.get? 1 with
        | some smin, some cmin =>
          { sent := [initializeRequest events, initializedNotif]
              ++ (if events.isEmpty then [] else [subscribeRequest events]),
            outcome := ConnectOutcome.ok,
            initialized := true,
            capabilities := dgetOpt initResult "capabilities",
            warnedOlderMinor := smin < cmin,
            transportOpen := true }
        | _, _ =>
          -- IndexError on `server_parts[1]` / `client_parts[1]`
          { sent := [initializeRequest events],
            outcome := ConnectOutcome.raisedBadVersionString,
            initialized := false, capabilities := none,
            warnedOlderMinor := false, transportOpen := true }
    | _, _ =>
      { sent := [initializeRequest events],
        outcome := ConnectOutcome.raisedBadVersionString,
        initialized := false, capabilities := none,
        warnedOlderMinor := false, transportOpen := true }
  | _, _ =>
    { sent := [initializeRequest events],
      outcome := ConnectOutcome.raisedBadVersionString,
      initialized := false, capabilities := none,
      warnedOlderMinor := false, transportOpen := true }

/-- The handler registries of a freshly constructed client (`__init__`
lines 151-166): seven seeded event categories, all empty. -/
def initHandlers : Handlers :=
  { eventHandlers := [("page", []), ("console", []), ("network", []),
      ("dialog", []), ("download", []), ("close", []), ("error", [])],
    streamChunkHandlers := [], streamEndHandlers := [], approvalHandlers := [] }

/-! ## Claims -/

/-- C10: inbound classification is by key presence alone — a parsed
message with an `"id"` key is processed as a response even when it also
carries a `"method"` key (so a server-initiated request never reaches
notification handlers), and a message with neither key is ignored
without touching any handler or client state. -/
theorem claim_C10_classification (s : ClientState) (h : Handlers) (data : Dict) :
    (hasKey data "id" = true →
      handleMessage s h data = MsgAction.response (handleResponse s data)) ∧
    (hasKey data "id" = false → hasKey data "method" = false →
      handleMessage s h data = MsgAction.ignored) := by
  constructor
  · intro hid
    simp [handleMessage, hid]
  · intro hid hm
    simp [handleMessage, hid, hm]

/-- Witness for C10 at a server-initiated request (both keys present)
and at a message with neither key. -/
theorem claim_C10_classification_witness :
    (hasKey [("id", JVal.int 7), ("method", JVal.str "ping")] "id" = true ∧
      handleMessage initState initHandlers [("id", JVal.int 7), ("method", JVal.str "ping")]
        = MsgAction.response
            (handleResponse initState [("id", JVal.int 7), ("method", JVal.str "ping")])) ∧
    (hasKey [("jsonrpc", JVal.str "2.0")] "id" = false ∧
      hasKey [("jsonrpc", JVal.str "2.0")] "method" = false ∧
      handleMessage initState initHandlers [("jsonrpc", JVal.str "2.0")] = MsgAction.ignored) :=
  ⟨⟨rfl, (claim_C10_classification initState initHandlers
      [("id", JVal.int 7), ("method", JVal.str "ping")]).1 rfl⟩,
   ⟨rfl, rfl, (claim_C10_classification initState initHandlers
      [("jsonrpc", JVal.str "2.0")]).2 rfl rfl⟩⟩

/-- C8 counterexample: on a connected client with an active page,
`close()` leaves `_active_page` untouched (no assignment in
`close()`, `client.py` lines 245-263), so the active-target reference
is not cleared even though the capability snapshot is. -/
theorem claim_C8_counterexample :
    let s : ClientState :=
      { requestId := 5, pending := [], initialized := true,
        capabilities := some (JVal.obj [("streaming", JVal.bool true)]),
        activePage := some "page-1", transportOpen := true }
    (closeStep s).1.capabilities = none ∧
    (closeStep s).1.activePage = some "page-1" ∧
    ¬((closeStep s).1.activePage = none) :=
  ⟨rfl, rfl, fun hc => Option.noConfusion hc⟩

/-- C8 amended: after `close()` the capability snapshot is cleared and
the initialized flag reset, but the active-target reference keeps
whatever value it had before the call. -/
theorem claim_C8_close_fields (s : ClientState) :
    (closeStep s).1.capabilities = none ∧
    (closeStep s).1.initialized = false ∧
    (closeStep s).1.activePage = s.activePage :=
  ⟨rfl, rfl, rfl⟩

/-- C5 counterexample: a server reporting `"2.0.0"` against the `"0.2.0"`
client makes `connect()` raise the fatal, non-retryable version-mismatch
error with no `events/subscribe` sent — but the transport is left open;
no path of `connect()` (`client.py` lines 190-243) closes it, refuting
the claim's "transport is closed before the error surfaces". -/
theorem claim_C5_counterexample :
    let r := connectModel ["page", "console", "network", "dialog"]
               [("protocolVersion", JVal.str "2.0.0")]
    r.outcome = ConnectOutcome.raisedVersionMismatch (versionMismatchError "2.0.0") ∧
    (versionMismatchError "2.0.0").retryable = false ∧
    r.sent = [initializeRequest ["page", "console", "network", "dialog"]] ∧
    r.transportOpen = true ∧
    ¬(r.transportOpen = false) :=
  ⟨rfl, rfl, rfl, rfl, fun hc => Bool.noConfusion hc⟩

/-- C5 amended: on a server major version differing from the client's,
`connect()` raises the fatal, non-retryable version-mismatch error, no
event-subscription request is sent, and the transport remains open (it
is not closed) when the error surfaces. -/
theorem claim_C5_version_mismatch (events : List String) (initResult : Dict)
    (sp : List Int) (smaj : Int)
    (hv : parseVersionParts (serverVersionOf initResult) = some sp)
    (h0 : sp.get? 0 = some smaj) (hmaj : smaj ≠ 0) :
    (connectModel events initResult).outcome
      = ConnectOutcome.raisedVersionMismatch
          (versionMismatchError (serverVersionOf initResult)) ∧
    (versionMismatchError (serverVersionOf initResult)).retryable = false ∧
    (versionMismatchError (serverVersionOf initResult)).code = ErrorCodes.InvalidRequest ∧
    (connectModel events initResult).sent = [initializeRequest events] ∧
    (∀ m ∈ (connectModel events initResult).sent,
      dget m "method" JVal.null ≠ JVal.str "events/subscribe") ∧
    (connectModel events initResult).transportOpen = true := by
  have hc : parseVersionParts BAP_VERSION = some [0, 2, 0] := rfl
  have hr : connectModel events initResult =
      { sent := [initializeRequest events],
        outcome := ConnectOutcome.raisedVersionMismatch
          (versionMismatchError (serverVersionOf initResult)),
        initialized := false, capabilities := none,
        warnedOlderMinor := false, transportOpen := true } := by
    simp only [connectModel]
    rw [hv, hc]
    simp only []
    rw [h0]
    simp only [List.get?]
    rw [if_pos hmaj]
  refine ⟨by rw [hr], rfl, rfl, by rw [hr], ?_, by rw [hr]⟩
  intro m hm
  rw [hr] at hm
  simp only [List.mem_singleton] at hm
  subst hm
  intro hbad
  have : "initialize" = "events/subscribe" := by
    have h1 : dget (initializeRequest events) "method" JVal.null
        = JVal.str "initialize" := rfl
    rw [h1] at hbad
    exact JVal.str.inj hbad
  simp at this

/-- Witness for C5 (amended) at the spec's `"2.0.0"` scenario. -/
theorem claim_C5_version_mismatch_witness :
    parseVersionParts (serverVersionOf [("protocolVersion", JVal.str "2.0.0")])
      = some [2, 0, 0] ∧
    ([2, 0, 0] : List Int).get? 0 = some 2 ∧ (2 : Int) ≠ 0 ∧
    ((connectModel ["page"] [("protocolVersion", JVal.str "2.0.0")]).outcome
        = ConnectOutcome.raisedVersionMismatch
            (versionMismatchError (serverVersionOf [("protocolVersion", JVal.str "2.0.0")])) ∧
      (versionMismatchError (serverVersionOf [("protocolVersion", JVal.str "2.0.0")])).retryable = false ∧
      (versionMismatchError (serverVersionOf [("protocolVersion", JVal.str "2.0.0")])).code
        = ErrorCodes.InvalidRequest ∧
      (connectModel ["page"] [("protocolVersion", JVal.str "2.0.0")]).sent
        = [initializeRequest ["page"]] ∧
      (∀ m ∈ (connectModel ["page"] [("protocolVersion", JVal.str "2.0.0")]).sent,
        dget m "method" JVal.null ≠ JVal.str "events/subscribe") ∧
      (connectModel ["page"] [("protocolVersion", JVal.str "2.0.0")]).transportOpen = true) :=
  ⟨rfl, rfl, by decide,
    claim_C5_version_mismatch ["page"] [("protocolVersion", JVal.str "2.0.0")]
      [2, 0, 0] 2 rfl rfl (by decide)⟩

/-- C7: with `max_reconnect_attempts = 3`, `reconnect_delay = 1`, and
every reconnect attempt failing, the loop makes exactly the attempts
1, 2, 3 with pre-attempt delays 1, 2, 4 seconds
(`delay = baseDelay * 2^(attempt-1)`) and then raises, which the
receive loop's `finally` reports as a terminal failure via `on_close`. -/
theorem claim_C7_reconnect_backoff (connectOk : Nat → Bool)
    (hfail : ∀ k, connectOk k = false) :
    attemptReconnectLoop connectOk 3 1 false 0 = ([(1, 1), (2, 2), (3, 4)], false) ∧
    receiveLoopEnd true false connectOk 3 1 = ([(1, 1), (2, 2), (3, 4)], true) := by
  have e : attemptReconnectLoop connectOk 3 1 false 0
      = ([(1, 1), (2, 2), (3, 4)], false) := by
    rw [attemptReconnectLoop]
    norm_num [hfail]
    rw [attemptReconnectLoop]
    norm_num [hfail]
    rw [attemptReconnectLoop]
    norm_num [hfail]
    rw [attemptReconnectLoop]
    norm_num
  refine ⟨e, ?_⟩
  simp only [receiveLoopEnd]
  simp [e]

/-- Witness for C7 with the always-failing connect oracle. -/
theorem claim_C7_reconnect_backoff_witness :
    (∀ k, (fun _ => false : Nat → Bool) k = false) ∧
    attemptReconnectLoop (fun _ => false) 3 1 false 0
      = ([(1, 1), (2, 2), (3, 4)], false) ∧
    receiveLoopEnd true false (fun _ => false) 3 1
      = ([(1, 1), (2, 2), (3, 4)], true) :=
  ⟨fun _ => rfl,
   (claim_C7_reconnect_backoff (fun _ => false) (fun _ => rfl)).1,
   (claim_C7_reconnect_backoff (fun _ => false) (fun _ => rfl)).2⟩

/-! ### Pending-table lemmas -/

lemma lookupPending_remove_self (t : List (Int × PendingEntry)) (i : Int) :
    lookupPending (removePending t i) i = none := by
  induction t with
  | nil => rfl
  | cons p rest ih =>
    rcases p with ⟨k, e⟩
    by_cases h : k = i
    · simpa [removePending, h] using ih
    · simpa [removePending, lookupPending, h] using ih

lemma lookupPending_remove_ne (t : List (Int × PendingEntry)) (i j : Int)
    (h : j ≠ i) :
    lookupPending (removePending t i) j = lookupPending t j := by
  induction t with
  | nil => rfl
  | cons p rest ih =>
    rcases p with ⟨k, e⟩
    by_cases hk : k = i
    · subst hk
      simpa [removePending, lookupPending, Ne.symm h] using ih
    · have hfilter : removePending ((k, e) :: rest) i = (k, e) :: removePending rest i := by
        simp [removePending, List.filter_cons, hk]
      rw [hfilter]
      by_cases hkj : k = j
      · simp [lookupPending, hkj]
      · simpa [lookupPending, hkj] using ih

lemma lookupPending_append_single (t : List (Int × PendingEntry)) (k : Int)
    (e : PendingEntry) (j : Int) :
    lookupPending (t ++ [(k, e)]) j =
      (match lookupPending t j with
       | some x => some x
       | none => if k = j then some e else none) := by
  induction t with
  | nil => rfl
  | cons p rest ih =>
    rcases p with ⟨k', e'⟩
    by_cases h : k' = j
    · simp [lookupPending, h]
    · simpa [lookupPending, h] using ih

/-- C3: a call whose timer fires while still pending settles with a
retryable timeout error whose message names the called method; the
pending entry is removed at settlement, so any response for that
correlation id arriving afterwards is silently discarded. -/
theorem claim_C3_timeout (s : ClientState) (rid : Int) (entry : PendingEntry)
    (hl : lookupPending s.pending rid = some entry)
    (hp : entry.future = FutureState.pending) :
    (onTimeout s rid).2
      = [Ev.settled rid (SettleVal.err (timeoutError entry.method))] ∧
    (timeoutError entry.method).retryable = true ∧
    (timeoutError entry.method).code = ErrorCodes.Timeout ∧
    (timeoutError entry.method).message = "Request timeout: " ++ entry.method ∧
    lookupPending (onTimeout s rid).1.pending rid = none ∧
    (∀ data : Dict, dgetOpt data "id" = some (JVal.int rid) →
      handleResponse (onTimeout s rid).1 data
        = ((onTimeout s rid).1, RespOutcome.discardedUnknown)) := by
  have ho : onTimeout s rid
      = ({ s with pending := removePending s.pending rid },
         [Ev.settled rid (SettleVal.err (timeoutError entry.method))]) := by
    simp [onTimeout, hl, hp]
  refine ⟨by rw [ho], rfl, rfl, rfl, ?_, ?_⟩
  · rw [ho]
    exact lookupPending_remove_self s.pending rid
  · intro data hid
    rw [ho]
    simp [handleResponse, hid, lookupPending_remove_self]

/-- Witness for C3: a pending `page/navigate` call times out; the late
response for its id is then discarded without touching state. -/
theorem claim_C3_timeout_witness :
    (let s : ClientState :=
      { requestId := 1,
        pending := [(1, ⟨"page/navigate", FutureState.pending, true⟩)],
        initialized := true, capabilities := none, activePage := none,
        transportOpen := true }
     lookupPending s.pending 1 = some ⟨"page/navigate", FutureState.pending, true⟩ ∧
     ((onTimeout s 1).2
        = [Ev.settled 1 (SettleVal.err (timeoutError "page/navigate"))] ∧
      (timeoutError "page/navigate").retryable = true ∧
      (timeoutError "page/navigate").code = ErrorCodes.Timeout ∧
      (timeoutError "page/navigate").message = "Request timeout: " ++ "page/navigate" ∧
      lookupPending (onTimeout s 1).1.pending 1 = none ∧
      (∀ data : Dict, dgetOpt data "id" = some (JVal.int 1) →
        handleResponse (onTimeout s 1).1 data
          = ((onTimeout s 1).1, RespOutcome.discardedUnknown)))) :=
  ⟨rfl, claim_C3_timeout _ 1 ⟨"page/navigate", FutureState.pending, true⟩ rfl rfl⟩

/-- `closeStep`'s settlement events are one per entry when every tracked
future is still pending (as the dispatcher invariant guarantees). -/
lemma closeEvents_eq_map (t : List (Int × PendingEntry))
    (h : ∀ p ∈ t, p.2.future = FutureState.pending) :
    (t.filterMap (fun p =>
      match p.2.future with
      | FutureState.pending => some (Ev.settled p.1 (SettleVal.err clientClosedError))
      | _ => none))
    = t.map (fun p => Ev.settled p.1 (SettleVal.err clientClosedError)) := by
  induction t with
  | nil => rfl
  | cons p rest ih =>
    have hp := h p (List.mem_cons_self p rest)
    simp only [List.filterMap_cons, List.map_cons, hp]
    rw [ih (fun q hq => h q (List.mem_cons_of_mem p hq))]

/-- C4: when `close()` runs with K calls outstanding, each of the K
pending futures is settled with the non-retryable client-closed error
and the pending table is left empty. -/
theorem claim_C4_close_settles_all (s : ClientState)
    (h : ∀ p ∈ s.pending, p.2.future = FutureState.pending) :
    (closeStep s).1.pending = [] ∧
    (closeStep s).2
      = s.pending.map (fun p => Ev.settled p.1 (SettleVal.err clientClosedError)) ∧
    clientClosedError.retryable = false ∧
    clientClosedError.code = ErrorCodes.ServerError ∧
    clientClosedError.message = "Client closed" := by
  refine ⟨rfl, ?_, rfl, rfl, rfl⟩
  simpa only [closeStep] using closeEvents_eq_map s.pending h

/-- Witness for C4 with two outstanding calls. -/
theorem claim_C4_close_settles_all_witness :
    (let s : ClientState :=
      { requestId := 2,
        pending := [(1, ⟨"browser/launch", FutureState.pending, true⟩),
                    (2, ⟨"page/create", FutureState.pending, true⟩)],
        initialized := true, capabilities := some (JVal.obj []),
        activePage := none, transportOpen := true }
     (∀ p ∈ s.pending, p.2.future = FutureState.pending) ∧
     ((closeStep s).1.pending = [] ∧
      (closeStep s).2
        = [Ev.settled 1 (SettleVal.err clientClosedError),
           Ev.settled 2 (SettleVal.err clientClosedError)] ∧
      clientClosedError.retryable = false ∧
      clientClosedError.code = ErrorCodes.ServerError ∧
      clientClosedError.message = "Client closed")) := by
  refine ⟨?_, claim_C4_close_settles_all _ ?_⟩ <;>
    (intro p hp; fin_cases hp <;> rfl)

/-! ### Correlation-id allocation -/

/-- The integer interval `[start, start + n)` as a list. -/
def idRange (start : Int) : Nat → List Int
  | 0 => []
  | n + 1 => start :: idRange (start + 1) n

/-- The number of `_request` calls in an operation sequence. -/
def countRequests (ops : List Op) : Nat :=
  ops.countP (fun op =>
    match op with
    | Op.request _ _ _ => true
    | _ => false)

lemma handleResponse_requestId (s : ClientState) (data : Dict) :
    (handleResponse s data).1.requestId = s.requestId := by
  simp only [handleResponse]
  repeat' split
  all_goals rfl

lemma onTimeout_requestId (s : ClientState) (rid : Int) :
    (onTimeout s rid).1.requestId = s.requestId := by
  simp only [onTimeout]
  repeat' split
  all_goals rfl

lemma step_requestId_request (s : ClientState) (m : String) (p : JVal) (ok : Bool) :
    (step s (Op.request m p ok)).1.requestId = s.requestId + 1 := by
  show (requestStep s m p ok).1.requestId = s.requestId + 1
  simp only [requestStep]
  split <;> rfl

lemma step_requestId_other (s : ClientState) (op : Op)
    (h : ∀ m p ok, op ≠ Op.request m p ok) :
    (step s op).1.requestId = s.requestId := by
  cases op with
  | request m p ok => exact absurd rfl (h m p ok)
  | inbound data =>
    have hs : step s (Op.inbound data)
        = if hasKey data "id" then
            ((handleResponse s data).1, respEvents (handleResponse s data).2)
          else (s, []) := rfl
    rw [hs]
    by_cases hid : hasKey data "id" = true
    · simp only [hid, if_true]
      exact handleResponse_requestId s data
    · simp [hid]
  | timerFire rid => exact onTimeout_requestId s rid
  | closeTeardown => rfl

lemma assignedIds_eq (ops : List Op) :
    ∀ s : ClientState, assignedIds s ops = idRange (s.requestId + 1) (countRequests ops) := by
  induction ops with
  | nil => intro s; rfl
  | cons op ops ih =>
    intro s
    cases op with
    | request m p ok =>
      have hn : countRequests (Op.request m p ok :: ops) = countRequests ops + 1 := by
        simp [countRequests, List.countP_cons]
      rw [hn]
      show (s.requestId + 1) :: assignedIds (step s (Op.request m p ok)).1 ops
        = idRange (s.requestId + 1) (countRequests ops + 1)
      rw [ih, step_requestId_request]
      rfl
    | inbound data =>
      have hn : countRequests (Op.inbound data :: ops) = countRequests ops := by
        simp [countRequests, List.countP_cons]
      rw [hn]
      show assignedIds (step s (Op.inbound data)).1 ops
        = idRange (s.requestId + 1) (countRequests ops)
      rw [ih, step_requestId_other]
      intro m p ok hx
      exact Op.noConfusion hx
    | timerFire rid =>
      have hn : countRequests (Op.timerFire rid :: ops) = countRequests ops := by
        simp [countRequests, List.countP_cons]
      rw [hn]
      show assignedIds (step s (Op.timerFire rid)).1 ops
        = idRange (s.requestId + 1) (countRequests ops)
      rw [ih, step_requestId_other]
      intro m p ok hx
      exact Op.noConfusion hx
    | closeTeardown =>
      have hn : countRequests (Op.closeTeardown :: ops) = countRequests ops := by
        simp [countRequests, List.countP_cons]
      rw [hn]
      show assignedIds (step s Op.closeTeardown).1 ops
        = idRange (s.requestId + 1) (countRequests ops)
      rw [ih, step_requestId_other]
      intro m p ok hx
      exact Op.noConfusion hx

lemma idRange_mem_le : ∀ (n : Nat) (start x : Int), x ∈ idRange start n → start ≤ x := by
  intro n
  induction n with
  | zero => intro start x hx; cases hx
  | succ n ih =>
    intro start x hx
    rcases List.mem_cons.mp hx with h | h
    · omega
    · have := ih (start + 1) x h
      omega

lemma idRange_pairwise : ∀ (n : Nat) (start : Int),
    (idRange start n).Pairwise (· < ·) := by
  intro n
  induction n with
  | zero => intro start; exact List.Pairwise.nil
  | succ n ih =>
    intro start
    refine List.Pairwise.cons ?_ (ih (start + 1))
    intro x hx
    have := idRange_mem_le n (start + 1) x hx
    omega

/-- C2: over any operation sequence on a fresh client, the correlation
ids handed to the successive `_request` calls are exactly 1, 2, …, N in
issue order — strictly increasing, starting at 1, never reused. -/
theorem claim_C2_correlation_ids (ops : List Op) :
    assignedIds initState ops = idRange 1 (countRequests ops) ∧
    (assignedIds initState ops).Pairwise (· < ·) := by
  have h := assignedIds_eq ops initState
  have h0 : initState.requestId + 1 = 1 := rfl
  rw [h0] at h
  exact ⟨h, h ▸ idRange_pairwise (countRequests ops) 1⟩

/-- C9: an inbound notification whose method is `"stream/chunk"` (with a
payload that validates) is delivered to every registered stream-chunk
handler — the outcome list is the map over the whole handler list, so a
raising handler (its per-invocation `try/except`, lines 1387-1391) does
not stop delivery to the rest — and it is never handed to the general
event registry. -/
theorem claim_C9_stream_chunk_routing (h : Handlers) (data : Dict) (c : StreamChunk)
    (hm : dget data "method" (JVal.str "") = JVal.str "stream/chunk")
    (hp : parseStreamChunk (dget data "params" (JVal.obj [])) = Except.ok c) :
    handleNotification h data
      = NotifyResult.streamChunk c (h.streamChunkHandlers.map (fun f => f c)) ∧
    (∀ cat ps outs, handleNotification h data ≠ NotifyResult.event cat ps outs) := by
  have hroute : handleNotification h data
      = NotifyResult.streamChunk c (h.streamChunkHandlers.map (fun f => f c)) := by
    simp only [handleNotification, hm, hp]
    rfl
  refine ⟨hroute, ?_⟩
  intro cat ps outs hbad
  rw [hroute] at hbad
  exact NotifyResult.noConfusion hbad

/-- The spec scenario's `stream/chunk` notification. -/
def chunkNotifData : Dict :=
  [("jsonrpc", JVal.str "2.0"), ("method", JVal.str "stream/chunk"),
   ("params", JVal.obj
     [("streamId", JVal.str "s1"), ("index", JVal.int 0),
      ("data", JVal.str "..."), ("offset", JVal.int 0), ("size", JVal.int 10)])]

/-- A registry with two stream-chunk handlers (the first raising) and a
registered general `page` handler. -/
def chunkWitnessHandlers : Handlers :=
  { eventHandlers := [("page", [fun _ => Except.ok ()]), ("console", []),
      ("network", []), ("dialog", []), ("download", []), ("close", []),
      ("error", [])],
    streamChunkHandlers := [fun _ => Except.error "boom", fun _ => Except.ok ()],
    streamEndHandlers := [], approvalHandlers := [] }

/-- Witness for C9: both chunk handlers are invoked (the second despite
the first raising), and no event handler receives the message. -/
theorem claim_C9_stream_chunk_routing_witness :
    dget chunkNotifData "method" (JVal.str "") = JVal.str "stream/chunk" ∧
    parseStreamChunk (dget chunkNotifData "params" (JVal.obj []))
      = Except.ok ⟨"s1", 0, "...", 0, 10⟩ ∧
    (handleNotification chunkWitnessHandlers chunkNotifData
       = NotifyResult.streamChunk ⟨"s1", 0, "...", 0, 10⟩
           [Except.error "boom", Except.ok ()] ∧
     (∀ cat ps outs, handleNotification chunkWitnessHandlers chunkNotifData
        ≠ NotifyResult.event cat ps outs)) :=
  ⟨rfl, rfl,
   claim_C9_stream_chunk_routing chunkWitnessHandlers chunkNotifData
     ⟨"s1", 0, "...", 0, 10⟩ rfl rfl⟩

/-! ## Round-trip behaviour of the error mapper (C6) -/

/-- `data.get("retryAfterMs")` applied to what `to_dict` emitted: a stored
JSON null is indistinguishable from an absent key. -/
def nullCollapse : Option JVal → Option JVal
  | some JVal.null => none
  | x => x

/-- The fields the round-trip claim compares: code, retryable, details. -/
def roundtripFields (e : BAPError) : Prop :=
  (BAPError.from_dict (BAPError.to_dict e)).code = e.code ∧
  (BAPError.from_dict (BAPError.to_dict e)).retryable = e.retryable ∧
  (BAPError.from_dict (BAPError.to_dict e)).details = e.details

/-- `from_dict` after `to_dict` re-enters the constructor table with the
error's own stored fields. -/
lemma from_dict_to_dict (e : BAPError) :
    BAPError.from_dict (BAPError.to_dict e)
      = create_error_from_code e.code e.message e.retryable
          (nullCollapse e.retryAfterMs) e.details := by
  rcases e with ⟨c, m, r, rams, dts⟩
  rcases rams with _ | v
  · rcases dts with _ | d <;> rfl
  · cases v <;> rcases dts with _ | d <;> rfl

lemma truthy_ne_null (v : JVal) (h : truthy v = true) : v ≠ JVal.null := by
  cases v <;> simp_all [truthy]

lemma truthyO_none : truthyO none = false := rfl

/-- A one-argument `details.get(key)` never observes a bare null. -/
lemma detGetOpt_ne_null (dts : Option Dict) (k : String) :
    detGetOpt dts k ≠ some JVal.null := by
  rcases dts with _ | d
  · simp [detGetOpt]
  · simp only [detGetOpt]
    unfold dgetOpt
    split <;> simp_all

/-- Storing an optional value under `k` and reading it back with
`get(k)` is the identity, provided the value is not a stored null. -/
lemma detGetOpt_entry (a : Option JVal) (h : a ≠ some JVal.null) (k : String)
    (t : Dict) : detGetOpt (some ((k, optVal a) :: t)) k = a := by
  rcases a with _ | v
  · simp [optVal, detGetOpt, dgetOpt, dget]
  · cases v
    case null => exact absurd rfl h
    all_goals simp [optVal, detGetOpt, dgetOpt, dget]

/-- `get(k)` skips a binding with a different key. -/
lemma detGetOpt_skip (k k' : String) (v : JVal) (t : Dict)
    (h : (k' == k) = false) :
    detGetOpt (some ((k', v) :: t)) k = detGetOpt (some t) k := by
  simp [detGetOpt, dgetOpt, dget, h]

lemma rt_timeout (m : String) (T : Option JVal) (hT : T ≠ some JVal.null) :
    roundtripFields (BAPTimeoutError m T) := by
  refine ⟨rfl, rfl, ?_⟩
  rcases T with _ | t
  · rfl
  · by_cases ht : truthy t
    · have hD : BAPTimeoutError m (some t)
          = mkBAPError ErrorCodes.Timeout m true (some (JVal.int 0))
              (some [("timeout", t)]) := by
        simp [BAPTimeoutError, ht]
      rw [hD]
      have hX : detGetOpt (some [("timeout", t)]) "timeout" = some t := by
        simpa [optVal] using detGetOpt_entry (some t) hT "timeout" []
      show (BAPTimeoutError m (detGetOpt (some [("timeout", t)]) "timeout")).details
        = some [("timeout", t)]
      rw [hX]
      simp [BAPTimeoutError, mkBAPError, ht]
    · have hD : BAPTimeoutError m (some t)
          = mkBAPError ErrorCodes.Timeout m true (some (JVal.int 0)) none := by
        simp [BAPTimeoutError, ht]
      rw [hD]
      rfl

lemma rt_element_not_found (sel : Option JVal) (hsel : sel ≠ some JVal.null)
    (r : Bool) (rams : JVal) :
    roundtripFields (BAPElementNotFoundError sel r rams) := by
  refine ⟨rfl, rfl, ?_⟩
  show some [("selector",
        optVal (detGetOpt (some [("selector", optVal sel)]) "selector"))]
      = some [("selector", optVal sel)]
  rw [detGetOpt_entry sel hsel]

lemma rt_element_not_visible (sel : Option JVal) (hsel : sel ≠ some JVal.null) :
    roundtripFields (BAPElementNotVisibleError sel) := by
  refine ⟨rfl, rfl, ?_⟩
  show some [("selector",
        optVal (detGetOpt (some [("selector", optVal sel)]) "selector"))]
      = some [("selector", optVal sel)]
  rw [detGetOpt_entry sel hsel]

lemma rt_element_not_enabled (sel : Option JVal) (hsel : sel ≠ some JVal.null) :
    roundtripFields (BAPElementNotEnabledError sel) := by
  refine ⟨rfl, rfl, ?_⟩
  show some [("selector",
        optVal (detGetOpt (some [("selector", optVal sel)]) "selector"))]
      = some [("selector", optVal sel)]
  rw [detGetOpt_entry sel hsel]

lemma rt_selector_ambiguous (sel : Option JVal) (hsel : sel ≠ some JVal.null)
    (cnt : JVal) :
    roundtripFields (BAPSelectorAmbiguousError sel cnt) := by
  refine ⟨rfl, rfl, ?_⟩
  show some [("selector",
        optVal (detGetOpt (some [("selector", optVal sel), ("count", cnt)]) "selector")),
       ("count", cnt)]
      = some [("selector", optVal sel), ("count", cnt)]
  rw [detGetOpt_entry sel hsel]

lemma rt_frame_not_found (idf : Option JVal) (h : idf ≠ some JVal.null) :
    roundtripFields (BAPFrameNotFoundError idf) := by
  refine ⟨rfl, rfl, ?_⟩
  by_cases ht : truthyO idf
  · have hd : (BAPFrameNotFoundError idf).details
        = some [("identifier", optVal idf)] := by
      simp [BAPFrameNotFoundError, mkBAPError, ht]
    rw [from_dict_to_dict, hd]
    show (BAPFrameNotFoundError
        (detGetOpt (some [("identifier", optVal idf)]) "identifier")).details
      = some [("identifier", optVal idf)]
    rw [detGetOpt_entry idf h]
    simp [BAPFrameNotFoundError, mkBAPError, ht]
  · have hd : (BAPFrameNotFoundError idf).details = none := by
      simp [BAPFrameNotFoundError, mkBAPError, ht]
    rw [from_dict_to_dict, hd]
    show (BAPFrameNotFoundError (detGetOpt none "identifier")).details = none
    simp [BAPFrameNotFoundError, mkBAPError, detGetOpt, truthyO_none]

lemma rt_approval_denied (a b : Option JVal) (ha : a ≠ some JVal.null)
    (hb : b ≠ some JVal.null) :
    roundtripFields (BAPApprovalDeniedError a b) := by
  refine ⟨rfl, rfl, ?_⟩
  by_cases hcond : (truthyO b || truthyO a) = true
  · have hd : (BAPApprovalDeniedError a b).details
        = some [("rule", optVal b), ("reason", optVal a)] := by
      simp [BAPApprovalDeniedError, mkBAPError, hcond]
    rw [from_dict_to_dict, hd]
    show (BAPApprovalDeniedError
        (detGetOpt (some [("rule", optVal b), ("reason", optVal a)]) "reason")
        (detGetOpt (some [("rule", optVal b), ("reason", optVal a)]) "rule")).details
      = some [("rule", optVal b), ("reason", optVal a)]
    rw [detGetOpt_skip "reason" "rule" (optVal b) [("reason", optVal a)] rfl,
        detGetOpt_entry a ha, detGetOpt_entry b hb]
    simp [BAPApprovalDeniedError, mkBAPError, hcond]
  · have hd : (BAPApprovalDeniedError a b).details = none := by
      rcases (by simpa using hcond : truthyO b = false ∧ truthyO a = false) with ⟨h1, h2⟩
      simp [BAPApprovalDeniedError, mkBAPError, h1, h2]
    rw [from_dict_to_dict, hd]
    show (BAPApprovalDeniedError (detGetOpt none "reason")
        (detGetOpt none "rule")).details = none
    simp [BAPApprovalDeniedError, mkBAPError, detGetOpt, truthyO_none]

lemma rt_navigation (m : String) (u w : Option JVal)
    (hu : u ≠ some JVal.null) (hw : w ≠ some JVal.null) (r : Bool) :
    roundtripFields (BAPNavigationError m u w r) := by
  refine ⟨rfl, rfl, ?_⟩
  by_cases hu' : truthyO u = true <;> by_cases hw' : truthyO w = true
  · have hd : (BAPNavigationError m u w r).details
        = some [("url", optVal u), ("status", optVal w)] := by
      simp [BAPNavigationError, mkBAPError, hu', hw']
    rw [from_dict_to_dict, hd]
    show (BAPNavigationError m
        (detGetOpt (some [("url", optVal u), ("status", optVal w)]) "url")
        (detGetOpt (some [("url", optVal u), ("status", optVal w)]) "status") r).details
      = some [("url", optVal u), ("status", optVal w)]
    rw [detGetOpt_skip "status" "url" (optVal u) [("status", optVal w)] rfl,
        detGetOpt_entry u hu, detGetOpt_entry w hw]
    simp [BAPNavigationError, mkBAPError, hu', hw']
  · have hd : (BAPNavigationError m u w r).details = some [("url", optVal u)] := by
      simp [BAPNavigationError, mkBAPError, hu', hw']
    rw [from_dict_to_dict, hd]
    show (BAPNavigationError m
        (detGetOpt (some [("url", optVal u)]) "url")
        (detGetOpt (some [("url", optVal u)]) "status") r).details
      = some [("url", optVal u)]
    rw [detGetOpt_entry u hu]
    simp [BAPNavigationError, mkBAPError, hu', hw', detGetOpt, dgetOpt, dget, truthyO_none]
  · have hd : (BAPNavigationError m u w r).details = some [("status", optVal w)] := by
      simp [BAPNavigationError, mkBAPError, hu', hw']
    rw [from_dict_to_dict, hd]
    show (BAPNavigationError m
        (detGetOpt (some [("status", optVal w)]) "url")
        (detGetOpt (some [("status", optVal w)]) "status") r).details
      = some [("status", optVal w)]
    rw [detGetOpt_entry w hw]
    simp [BAPNavigationError, mkBAPError, hu', hw', detGetOpt, dgetOpt, dget, truthyO_none]
  · have hd : (BAPNavigationError m u w r).details = none := by
      simp [BAPNavigationError, mkBAPError, hu', hw']
    rw [from_dict_to_dict, hd]
    show (BAPNavigationError m (detGetOpt none "url")
        (detGetOpt none "status") r).details = none
    simp [BAPNavigationError, mkBAPError, detGetOpt, truthyO_none]

lemma rt_action (act : JVal) (m : String) (sel : Option JVal)
    (hsel : sel ≠ some JVal.null) (r : Bool) :
    roundtripFields (BAPActionError act m sel r) := by
  refine ⟨rfl, rfl, ?_⟩
  by_cases hs' : truthyO sel = true
  · have hd : (BAPActionError act m sel r).details
        = some [("action", act), ("selector", optVal sel)] := by
      simp [BAPActionError, mkBAPError, hs']
    rw [from_dict_to_dict, hd]
    show (BAPActionError act (pyStr act ++ " failed: " ++ m)
        (detGetOpt (some [("action", act), ("selector", optVal sel)]) "selector") r).details
      = some [("action", act), ("selector", optVal sel)]
    rw [detGetOpt_skip "selector" "action" act [("selector", optVal sel)] rfl,
        detGetOpt_entry sel hsel]
    simp [BAPActionError, mkBAPError, hs']
  · have hd : (BAPActionError act m sel r).details = some [("action", act)] := by
      simp [BAPActionError, mkBAPError, hs']
    rw [from_dict_to_dict, hd]
    show (BAPActionError act (pyStr act ++ " failed: " ++ m)
        (detGetOpt (some [("action", act)]) "selector") r).details
      = some [("action", act)]
    simp [BAPActionError, mkBAPError, detGetOpt, dgetOpt, dget, truthyO_none]

set_option maxHeartbeats 1600000 in
/-- Each branch of `create_error_from_code` stamps the dispatched code
itself onto the resulting error, and the default branch keeps it. -/
lemma cefc_code (c : Int) (m : String) (r : Bool) (rams : Option JVal)
    (dts : Option Dict) :
    (create_error_from_code c m r rams dts).code = c := by
  by_cases h1 : c = ErrorCodes.ParseError
  · subst h1; rfl
  by_cases h2 : c = ErrorCodes.MethodNotFound
  · subst h2; rfl
  by_cases h3 : c = ErrorCodes.NotInitialized
  · subst h3; rfl
  by_cases h4 : c = ErrorCodes.AlreadyInitialized
  · subst h4; rfl
  by_cases h5 : c = ErrorCodes.BrowserNotLaunched
  · subst h5; rfl
  by_cases h6 : c = ErrorCodes.Timeout
  · subst h6; rfl
  by_cases h7 : c = ErrorCodes.TargetClosed
  · subst h7; rfl
  by_cases h8 : c = ErrorCodes.ExecutionContextDestroyed
  · subst h8; rfl
  by_cases h9 : c = ErrorCodes.ApprovalDenied
  · subst h9; rfl
  by_cases h10 : c = ErrorCodes.FrameNotFound
  · subst h10; rfl
  by_cases h11 : c = ErrorCodes.StreamNotFound
  · subst h11; rfl
  by_cases h12 : c = ErrorCodes.StreamCancelled
  · subst h12; rfl
  by_cases h13 : c = ErrorCodes.PageNotFound
  · subst h13; rfl
  by_cases h14 : c = ErrorCodes.ElementNotFound
  · subst h14; rfl
  by_cases h15 : c = ErrorCodes.ElementNotVisible
  · subst h15; rfl
  by_cases h16 : c = ErrorCodes.ElementNotEnabled
  · subst h16; rfl
  by_cases h17 : c = ErrorCodes.SelectorAmbiguous
  · subst h17; rfl
  by_cases h18 : c = ErrorCodes.NavigationFailed
  · subst h18; rfl
  by_cases h19 : c = ErrorCodes.ActionFailed
  · subst h19; rfl
  by_cases h20 : c = ErrorCodes.ContextNotFound
  · subst h20; rfl
  by_cases h21 : c = ErrorCodes.ResourceLimitExceeded
  · subst h21; rfl
  by_cases h22 : c = ErrorCodes.ApprovalTimeout
  · subst h22; rfl
  by_cases h23 : c = ErrorCodes.ApprovalRequired
  · subst h23; rfl
  by_cases h24 : c = ErrorCodes.DomainNotAllowed
  · subst h24; rfl
  simp [create_error_from_code, mkBAPError, h1, h2, h3, h4, h5, h6, h7, h8, h9, h10, h11, h12, h13, h14, h15, h16, h17, h18, h19, h20, h21, h22, h23, h24]

set_option maxHeartbeats 1600000 in
/-- The round trip restricted to errors produced by the mapper. -/
lemma cefc_roundtrip (c : Int) (m : String) (r : Bool) (rams : Option JVal)
    (dts : Option Dict) :
    roundtripFields (create_error_from_code c m r rams dts) := by
  by_cases h1 : c = ErrorCodes.ParseError
  · subst h1; exact ⟨rfl, rfl, rfl⟩
  by_cases h2 : c = ErrorCodes.MethodNotFound
  · subst h2; exact ⟨rfl, rfl, rfl⟩
  by_cases h3 : c = ErrorCodes.NotInitialized
  · subst h3; exact ⟨rfl, rfl, rfl⟩
  by_cases h4 : c = ErrorCodes.AlreadyInitialized
  · subst h4; exact ⟨rfl, rfl, rfl⟩
  by_cases h5 : c = ErrorCodes.BrowserNotLaunched
  · subst h5; exact ⟨rfl, rfl, rfl⟩
  by_cases h6 : c = ErrorCodes.Timeout
  · subst h6
    exact rt_timeout m (detGetOpt dts "timeout") (detGetOpt_ne_null dts "timeout")
  by_cases h7 : c = ErrorCodes.TargetClosed
  · subst h7; exact ⟨rfl, rfl, rfl⟩
  by_cases h8 : c = ErrorCodes.ExecutionContextDestroyed
  · subst h8; exact ⟨rfl, rfl, rfl⟩
  by_cases h9 : c = ErrorCodes.ApprovalDenied
  · subst h9
    exact rt_approval_denied (detGetOpt dts "reason") (detGetOpt dts "rule")
          (detGetOpt_ne_null dts "reason") (detGetOpt_ne_null dts "rule")
  by_cases h10 : c = ErrorCodes.FrameNotFound
  · subst h10
    exact rt_frame_not_found (detGetOpt dts "identifier") (detGetOpt_ne_null dts "identifier")
  by_cases h11 : c = ErrorCodes.StreamNotFound
  · subst h11; exact ⟨rfl, rfl, rfl⟩
  by_cases h12 : c = ErrorCodes.StreamCancelled
  · subst h12; exact ⟨rfl, rfl, rfl⟩
  by_cases h13 : c = ErrorCodes.PageNotFound
  · subst h13; exact ⟨rfl, rfl, rfl⟩
  by_cases h14 : c = ErrorCodes.ElementNotFound
  · subst h14
    exact rt_element_not_found (detGetOpt dts "selector")
          (detGetOpt_ne_null dts "selector") r (pyOrInt rams 500)
  by_cases h15 : c = ErrorCodes.ElementNotVisible
  · subst h15
    exact rt_element_not_visible (detGetOpt dts "selector") (detGetOpt_ne_null dts "selector")
  by_cases h16 : c = ErrorCodes.ElementNotEnabled
  · subst h16
    exact rt_element_not_enabled (detGetOpt dts "selector") (detGetOpt_ne_null dts "selector")
  by_cases h17 : c = ErrorCodes.SelectorAmbiguous
  · subst h17
    exact rt_selector_ambiguous (detGetOpt dts "selector")
          (detGetOpt_ne_null dts "selector") (detGetD dts "count" (JVal.int 0))
  by_cases h18 : c = ErrorCodes.NavigationFailed
  · subst h18
    exact rt_navigation m (detGetOpt dts "url") (detGetOpt dts "status")
          (detGetOpt_ne_null dts "url") (detGetOpt_ne_null dts "status") r
  by_cases h19 : c = ErrorCodes.ActionFailed
  · subst h19
    exact rt_action (detGetD dts "action" (JVal.str "action")) m
          (detGetOpt dts "selector") (detGetOpt_ne_null dts "selector") r
  by_cases h20 : c = ErrorCodes.ContextNotFound
  · subst h20; exact ⟨rfl, rfl, rfl⟩
  by_cases h21 : c = ErrorCodes.ResourceLimitExceeded
  · subst h21; exact ⟨rfl, rfl, rfl⟩
  by_cases h22 : c = ErrorCodes.ApprovalTimeout
  · subst h22; exact ⟨rfl, rfl, rfl⟩
  by_cases h23 : c = ErrorCodes.ApprovalRequired
  · subst h23; exact ⟨rfl, rfl, rfl⟩
  by_cases h24 : c = ErrorCodes.DomainNotAllowed
  · subst h24; exact ⟨rfl, rfl, rfl⟩
  have he : create_error_from_code c m r rams dts = mkBAPError c m r rams dts := by
    simp [create_error_from_code, h1, h2, h3, h4, h5, h6, h7, h8, h9, h10, h11, h12, h13, h14, h15, h16, h17, h18, h19, h20, h21, h22, h23, h24]
  rw [he]
  refine ⟨?_, ?_, ?_⟩ <;>
    (rw [from_dict_to_dict]
     simp [create_error_from_code, mkBAPError,
       h1, h2, h3, h4, h5, h6, h7, h8, h9, h10, h11, h12, h13, h14, h15, h16, h17, h18, h19, h20, h21, h22, h23, h24])

/-- C6 counterexample: a typed error carrying the NotInitialized code but
`retryable=True` and details `{"a": 1}` (constructible via the base
`BAPError` constructor) does not survive the round trip: `from_dict`
rebuilds `BAPNotInitializedError`, which forces `retryable=False` and
drops the details. -/
theorem claim_C6_counterexample :
    (BAPError.from_dict (BAPError.to_dict
        (mkBAPError ErrorCodes.NotInitialized "boom" true none
          (some [("a", JVal.int 1)])))).retryable = false ∧
    (mkBAPError ErrorCodes.NotInitialized "boom" true none
        (some [("a", JVal.int 1)])).retryable = true ∧
    (BAPError.from_dict (BAPError.to_dict
        (mkBAPError ErrorCodes.NotInitialized "boom" true none
          (some [("a", JVal.int 1)])))).details = none ∧
    (mkBAPError ErrorCodes.NotInitialized "boom" true none
        (some [("a", JVal.int 1)])).details = some [("a", JVal.int 1)] ∧
    ¬ roundtripFields (mkBAPError ErrorCodes.NotInitialized "boom" true none
        (some [("a", JVal.int 1)])) :=
  ⟨rfl, rfl, rfl, rfl, fun hrt => Bool.noConfusion hrt.2.1⟩

/-- C6 amended: serialization with `to_dict` followed by `from_dict`
preserves the code of every typed error, and preserves code, retryable
flag and details for every error produced by the code→constructor table
(`create_error_from_code`, hence for every error parsed from the wire);
directly constructed errors with field combinations a specialized
constructor normalizes are the counterexample's exception. -/
theorem claim_C6_roundtrip_mapped :
    (∀ e : BAPError, (BAPError.from_dict (BAPError.to_dict e)).code = e.code) ∧
    (∀ (c : Int) (m : String) (r : Bool) (rams : Option JVal) (dts : Option Dict),
      roundtripFields (create_error_from_code c m r rams dts)) :=
  ⟨fun e => by
      rw [from_dict_to_dict]
      exact cefc_code e.code e.message e.retryable (nullCollapse e.retryAfterMs) e.details,
   fun c m r rams dts => cefc_roundtrip c m r rams dts⟩


/-! ## At-most-once settlement (C1) -/

lemma settleCount_append (a b : List Ev) (i : Int) :
    settleCount (a ++ b) i = settleCount a i + settleCount b i := by
  simp [settleCount, List.countP_append]

lemma settleCount_nil (i : Int) : settleCount [] i = 0 := rfl

lemma settleCount_sent (m : Dict) (i : Int) : settleCount [Ev.sent m] i = 0 := rfl

lemma settleCount_sendRaised (r : Int) (i : Int) :
    settleCount [Ev.sendRaised r] i = 0 := rfl

lemma settleCount_diagnostic (d : String) (i : Int) :
    settleCount [Ev.diagnostic d] i = 0 := rfl

lemma settleCount_settled (j : Int) (v : SettleVal) (i : Int) :
    settleCount [Ev.settled j v] i = if j = i then 1 else 0 := by
  by_cases h : j = i <;> simp [settleCount, List.countP_cons, h]

lemma settleCount_closeEvents (t : List (Int × PendingEntry)) (i : Int) :
    settleCount (t.map (fun p => Ev.settled p.1 (SettleVal.err clientClosedError))) i
      = (t.map Prod.fst).count i := by
  induction t with
  | nil => rfl
  | cons p rest ih =>
    by_cases h : p.1 = i <;>
      simp [settleCount, List.countP_cons, List.count_cons, h] <;>
      simpa [settleCount] using ih

lemma lookupPending_none_iff (t : List (Int × PendingEntry)) (i : Int) :
    lookupPending t i = none ↔ i ∉ t.map Prod.fst := by
  induction t with
  | nil => simp [lookupPending]
  | cons p rest ih =>
    by_cases h : p.1 = i
    · simp [lookupPending, h]
    · simp [lookupPending, h, ih, Ne.symm h]

lemma lookupPending_mem (t : List (Int × PendingEntry)) (i : Int)
    (e : PendingEntry) (h : lookupPending t i = some e) : (i, e) ∈ t := by
  induction t with
  | nil => cases h
  | cons p rest ih =>
    rcases p with ⟨k, e'⟩
    by_cases hk : k = i
    · subst hk
      simp only [lookupPending, if_pos rfl] at h
      cases h
      exact List.mem_cons_self _ _
    · simp only [lookupPending, if_neg hk] at h
      exact List.mem_cons_of_mem _ (ih h)

lemma keys_remove (t : List (Int × PendingEntry)) (i : Int) :
    (removePending t i).map Prod.fst
      = (t.map Prod.fst).filter (fun k => !(k == i)) := by
  induction t with
  | nil => rfl
  | cons p rest ih =>
    by_cases h : p.1 = i <;> simp [removePending, List.filter_cons, h] <;>
      simpa [removePending] using ih

lemma lookupPending_remove_none (t : List (Int × PendingEntry)) (i j : Int)
    (h : lookupPending t i = none) :
    lookupPending (removePending t j) i = none := by
  by_cases e : i = j
  · subst e; exact lookupPending_remove_self t i
  · rw [lookupPending_remove_ne t j i e]; exact h

/-- The dispatcher invariant: pending ids are distinct, positive, at most
the id counter, all tracked futures unsettled; each id settles at most
once, and a settled id is no longer tracked and never exceeds the
counter (so it can never be re-registered). -/
def DispatchInv (s : ClientState) (evs : List Ev) : Prop :=
  (s.pending.map Prod.fst).Nodup ∧
  0 ≤ s.requestId ∧
  (∀ p ∈ s.pending, 1 ≤ p.1 ∧ p.1 ≤ s.requestId ∧ p.2.future = FutureState.pending) ∧
  (∀ i : Int, settleCount evs i ≤ 1) ∧
  (∀ i : Int, 1 ≤ settleCount evs i →
    lookupPending s.pending i = none ∧ i ≤ s.requestId)

lemma dispatchInv_init : DispatchInv initState [] := by
  refine ⟨List.nodup_nil, le_refl 0, ?_, ?_, ?_⟩
  · intro p hp; cases hp
  · intro i; simp [settleCount_nil]
  · intro i hi; simp [settleCount_nil] at hi


/-- Diagnostics never settle anything: the invariant survives. -/
lemma dispatchInv_diag (s : ClientState) (evs : List Ev) (d : String)
    (h : DispatchInv s evs) : DispatchInv s (evs ++ [Ev.diagnostic d]) := by
  obtain ⟨hnd, h0, hmem, hcnt, hset⟩ := h
  refine ⟨hnd, h0, hmem, ?_, ?_⟩
  · intro i
    rw [settleCount_append, settleCount_diagnostic]
    simpa using hcnt i
  · intro i hi
    rw [settleCount_append, settleCount_diagnostic] at hi
    exact hset i (by simpa using hi)

lemma dispatchInv_nilEv (s : ClientState) (evs : List Ev)
    (h : DispatchInv s evs) : DispatchInv s (evs ++ []) := by
  simpa using h

/-- Settling a tracked id removes it and charges one settlement to it. -/
lemma dispatchInv_settle (s : ClientState) (evs : List Ev) (rid : Int)
    (x : SettleVal) (entry : PendingEntry) (h : DispatchInv s evs)
    (hl : lookupPending s.pending rid = some entry) :
    DispatchInv { s with pending := removePending s.pending rid }
      (evs ++ [Ev.settled rid x]) := by
  obtain ⟨hnd, h0, hmem, hcnt, hset⟩ := h
  have hridmem := hmem (rid, entry) (lookupPending_mem _ _ _ hl)
  have hcnt0 : settleCount evs rid = 0 := by
    by_contra hne
    have h1 : 1 ≤ settleCount evs rid := by omega
    have := (hset rid h1).1
    rw [this] at hl
    cases hl
  refine ⟨?_, h0, ?_, ?_, ?_⟩
  · rw [keys_remove]
    exact hnd.filter _
  · intro q hq
    exact hmem q (List.mem_filter.mp hq).1
  · intro i
    rw [settleCount_append, settleCount_settled]
    by_cases hir : rid = i
    · subst hir
      simp [hcnt0]
    · have := hcnt i
      simp [hir]
      omega
  · intro i hi
    rw [settleCount_append, settleCount_settled] at hi
    by_cases hir : rid = i
    · subst hir
      exact ⟨lookupPending_remove_self s.pending rid, hridmem.2.1⟩
    · simp [hir] at hi
      obtain ⟨hnone, hle⟩ := hset i hi
      exact ⟨lookupPending_remove_none s.pending i rid hnone, hle⟩

/-- The fresh id of a `_request` is not yet tracked. -/
lemma fresh_not_mem (s : ClientState) (evs : List Ev) (h : DispatchInv s evs) :
    s.requestId + 1 ∉ s.pending.map Prod.fst := by
  obtain ⟨_, _, hmem, _, _⟩ := h
  intro hm
  obtain ⟨q, hq, he⟩ := List.mem_map.mp hm
  have := (hmem q hq).2.1
  omega

/-- One step of the client preserves the dispatcher invariant. -/
lemma dispatchInv_step (s : ClientState) (evs : List Ev) (op : Op)
    (h : DispatchInv s evs) :
    DispatchInv (step s op).1 (evs ++ (step s op).2) := by
  obtain ⟨hnd, h0, hmem, hcnt, hset⟩ := h
  cases op with
  | request m p ok =>
    have hfresh : s.requestId + 1 ∉ s.pending.map Prod.fst :=
      fresh_not_mem s evs ⟨hnd, h0, hmem, hcnt, hset⟩
    cases ok with
    | true =>
      have hstep : step s (Op.request m p true)
          = ({ s with
                requestId := s.requestId + 1,
                pending := s.pending
                  ++ [(s.requestId + 1, ⟨m, FutureState.pending, true⟩)] },
             [Ev.sent (create_request (s.requestId + 1) m (some p))]) := rfl
      rw [hstep]
      refine ⟨?_, by show (0 : Int) ≤ s.requestId + 1; omega, ?_, ?_, ?_⟩
      · show (List.map Prod.fst (s.pending
          ++ [(s.requestId + 1, ⟨m, FutureState.pending, true⟩)])).Nodup
        rw [List.map_append]
        rw [List.nodup_append]
        refine ⟨hnd, List.nodup_singleton _, ?_⟩
        intro a ha hb
        simp at hb
        subst hb
        exact hfresh ha
      · intro q hq
        show 1 ≤ q.1 ∧ q.1 ≤ s.requestId + 1 ∧ q.2.future = FutureState.pending
        rcases List.mem_append.mp hq with hq | hq
        · have := hmem q hq
          exact ⟨this.1, by omega, this.2.2⟩
        · simp at hq
          rw [hq]
          exact ⟨by omega, by omega, rfl⟩
      · intro i
        rw [settleCount_append, settleCount_sent]
        simpa using hcnt i
      · intro i hi
        rw [settleCount_append, settleCount_sent] at hi
        obtain ⟨hnone, hle⟩ := hset i (by simpa using hi)
        show lookupPending (s.pending
          ++ [(s.requestId + 1, ⟨m, FutureState.pending, true⟩)]) i = none
          ∧ i ≤ s.requestId + 1
        rw [lookupPending_append_single, hnone]
        have : ¬(s.requestId + 1 = i) := by omega
        simp [this]
        omega
    | false =>
      have hpend : removePending
            (s.pending ++ [(s.requestId + 1, ⟨m, FutureState.pending, true⟩)])
            (s.requestId + 1)
          = removePending s.pending (s.requestId + 1) := by
        simp [removePending, List.filter_append]
      have hstep : step s (Op.request m p false)
          = ({ s with
                requestId := s.requestId + 1,
                pending := removePending
                  (s.pending ++ [(s.requestId + 1, ⟨m, FutureState.pending, true⟩)])
                  (s.requestId + 1) },
             [Ev.sendRaised (s.requestId + 1)]) := rfl
      rw [hstep]
      refine ⟨?_, by show (0 : Int) ≤ s.requestId + 1; omega, ?_, ?_, ?_⟩
      · show (List.map Prod.fst (removePending
          (s.pending ++ [(s.requestId + 1, ⟨m, FutureState.pending, true⟩)])
          (s.requestId + 1))).Nodup
        rw [hpend, keys_remove]
        exact hnd.filter _
      · intro q hq
        show 1 ≤ q.1 ∧ q.1 ≤ s.requestId + 1 ∧ q.2.future = FutureState.pending
        rw [hpend] at hq
        have := hmem q (List.mem_filter.mp hq).1
        exact ⟨this.1, by omega, this.2.2⟩
      · intro i
        rw [settleCount_append, settleCount_sendRaised]
        simpa using hcnt i
      · intro i hi
        rw [settleCount_append, settleCount_sendRaised] at hi
        obtain ⟨hnone, hle⟩ := hset i (by simpa using hi)
        show lookupPending (removePending
          (s.pending ++ [(s.requestId + 1, ⟨m, FutureState.pending, true⟩)])
          (s.requestId + 1)) i = none ∧ i ≤ s.requestId + 1
        rw [hpend]
        exact ⟨lookupPending_remove_none _ _ _ hnone, by omega⟩
  | inbound data =>
    have hstep : step s (Op.inbound data)
        = if hasKey data "id" then
            ((handleResponse s data).1, respEvents (handleResponse s data).2)
          else (s, []) := rfl
    rw [hstep]
    by_cases hk : hasKey data "id" = true
    · simp only [hk, if_true]
      rcases hid : dgetOpt data "id" with _ | v
      · have hr : handleResponse s data = (s, RespOutcome.discardedUnknown) := by
          simp [handleResponse, hid]
        rw [hr]
        exact dispatchInv_diag s evs _ ⟨hnd, h0, hmem, hcnt, hset⟩
      · cases v with
        | int rid =>
          rcases hl : lookupPending s.pending rid with _ | entry
          · have hr : handleResponse s data = (s, RespOutcome.discardedUnknown) := by
              simp [handleResponse, hid, hl]
            rw [hr]
            exact dispatchInv_diag s evs _ ⟨hnd, h0, hmem, hcnt, hset⟩
          · have hfut : entry.future = FutureState.pending :=
              (hmem (rid, entry) (lookupPending_mem _ _ _ hl)).2.2
            have hstate : (handleResponse s data).1
                = { s with pending := removePending s.pending rid } := by
              simp only [handleResponse, hid, hl, hfut]
              split <;> rfl
            have hev : ∃ x, respEvents (handleResponse s data).2 = [Ev.settled rid x] := by
              simp only [handleResponse, hid, hl, hfut]
              split
              · exact ⟨_, rfl⟩
              · exact ⟨_, rfl⟩
            obtain ⟨x, hev⟩ := hev
            rw [hstate, hev]
            exact dispatchInv_settle s evs rid x entry ⟨hnd, h0, hmem, hcnt, hset⟩ hl
        | null =>
          have hr : handleResponse s data = (s, RespOutcome.discardedUnknown) := by
            simp [handleResponse, hid]
          rw [hr]
          exact dispatchInv_diag s evs _ ⟨hnd, h0, hmem, hcnt, hset⟩
        | bool b =>
          have hr : handleResponse s data = (s, RespOutcome.discardedUnknown) := by
            simp [handleResponse, hid]
          rw [hr]
          exact dispatchInv_diag s evs _ ⟨hnd, h0, hmem, hcnt, hset⟩
        | str t =>
          have hr : handleResponse s data = (s, RespOutcome.discardedUnknown) := by
            simp [handleResponse, hid]
          rw [hr]
          exact dispatchInv_diag s evs _ ⟨hnd, h0, hmem, hcnt, hset⟩
        | obj o =>
          have hr : handleResponse s data = (s, RespOutcome.discardedUnknown) := by
            simp [handleResponse, hid]
          rw [hr]
          exact dispatchInv_diag s evs _ ⟨hnd, h0, hmem, hcnt, hset⟩
        | arr a =>
          have hr : handleResponse s data = (s, RespOutcome.discardedUnknown) := by
            simp [handleResponse, hid]
          rw [hr]
          exact dispatchInv_diag s evs _ ⟨hnd, h0, hmem, hcnt, hset⟩
    · simp only [hk]
      simp only [Bool.false_eq_true, if_false]
      exact dispatchInv_nilEv s evs ⟨hnd, h0, hmem, hcnt, hset⟩
  | timerFire rid =>
    have hstep : step s (Op.timerFire rid) = onTimeout s rid := rfl
    rw [hstep]
    rcases hl : lookupPending s.pending rid with _ | entry
    · have hr : onTimeout s rid = (s, []) := by simp [onTimeout, hl]
      rw [hr]
      exact dispatchInv_nilEv s evs ⟨hnd, h0, hmem, hcnt, hset⟩
    · have hfut : entry.future = FutureState.pending :=
        (hmem (rid, entry) (lookupPending_mem _ _ _ hl)).2.2
      have hr : onTimeout s rid
          = ({ s with pending := removePending s.pending rid },
             [Ev.settled rid (SettleVal.err (timeoutError entry.method))]) := by
        simp [onTimeout, hl, hfut]
      rw [hr]
      exact dispatchInv_settle s evs rid _ entry ⟨hnd, h0, hmem, hcnt, hset⟩ hl
  | closeTeardown =>
    have hstep : step s Op.closeTeardown = closeStep s := rfl
    rw [hstep]
    have hevmap : (closeStep s).2
        = s.pending.map (fun p => Ev.settled p.1 (SettleVal.err clientClosedError)) := by
      simpa only [closeStep] using
        closeEvents_eq_map s.pending (fun p hp => (hmem p hp).2.2)
    have hstate : (closeStep s).1
        = { s with
              pending := [], initialized := false, capabilities := none,
              transportOpen := false } := rfl
    rw [hevmap, hstate]
    refine ⟨by simp, h0, ?_, ?_, ?_⟩
    · intro q hq
      cases hq
    · intro i
      rw [settleCount_append, settleCount_closeEvents]
      by_cases hm : i ∈ s.pending.map Prod.fst
      · have hc0 : settleCount evs i = 0 := by
          by_contra hne
          have h1 : 1 ≤ settleCount evs i := by omega
          have := (hset i h1).1
          rw [lookupPending_none_iff] at this
          exact this hm
        have : (s.pending.map Prod.fst).count i ≤ 1 :=
          List.nodup_iff_count_le_one.mp hnd i
        omega
      · have : (s.pending.map Prod.fst).count i = 0 := List.count_eq_zero.mpr hm
        have := hcnt i
        omega
    · intro i hi
      refine ⟨rfl, ?_⟩
      show i ≤ s.requestId
      rw [settleCount_append, settleCount_closeEvents] at hi
      by_cases hm : i ∈ s.pending.map Prod.fst
      · obtain ⟨q, hq, he⟩ := List.mem_map.mp hm
        have := (hmem q hq).2.1
        omega
      · have hz : (s.pending.map Prod.fst).count i = 0 := List.count_eq_zero.mpr hm
        rw [hz] at hi
        exact (hset i (by omega)).2

/-- The invariant holds along every run. -/
lemma dispatchInv_run (ops : List Op) :
    ∀ (s : ClientState) (evs : List Ev), DispatchInv s evs →
      DispatchInv (run s ops).1 (evs ++ (run s ops).2) := by
  induction ops with
  | nil =>
    intro s evs h
    simpa [run] using h
  | cons op ops ih =>
    intro s evs h
    have h1 := dispatchInv_step s evs op h
    have h2 := ih (step s op).1 (evs ++ (step s op).2) h1
    simpa [run, List.append_assoc] using h2


/-- C1: along any run of a fresh client each correlation id is settled at
most once — a settlement requires a tracked pending entry, which is
removed at that instant and can never be re-registered; any inbound
response whose id has no pending entry (unknown or already settled)
changes no state and is discarded with a diagnostic; re-delivering a
response is always a no-op. -/
theorem claim_C1_settled_at_most_once :
    (∀ (ops : List Op) (i : Int), settleCount (run initState ops).2 i ≤ 1) ∧
    (∀ (s : ClientState) (data : Dict) (rid : Int),
      dgetOpt data "id" = some (JVal.int rid) →
      lookupPending s.pending rid = none →
      handleResponse s data = (s, RespOutcome.discardedUnknown)) ∧
    (∀ (s : ClientState) (data : Dict) (rid : Int),
      dgetOpt data "id" = some (JVal.int rid) →
      handleResponse (handleResponse s data).1 data
        = ((handleResponse s data).1, RespOutcome.discardedUnknown)) := by
  refine ⟨?_, ?_, ?_⟩
  · intro ops i
    have h := dispatchInv_run ops initState [] dispatchInv_init
    have hc := h.2.2.2.1 i
    simpa using hc
  · intro s data rid hid hl
    simp [handleResponse, hid, hl]
  · intro s data rid hid
    rcases hl : lookupPending s.pending rid with _ | entry
    · have h1 : handleResponse s data = (s, RespOutcome.discardedUnknown) := by
        simp [handleResponse, hid, hl]
      rw [h1]
      simp [handleResponse, hid, hl]
    · have h1 : (handleResponse s data).1
          = { s with pending := removePending s.pending rid } := by
      -- all three future branches leave the same popped state
        simp only [handleResponse, hid, hl]
        cases hfu : entry.future
        · dsimp only
          split <;> rfl
        · rfl
        · rfl
      rw [h1]
      simp [handleResponse, hid, lookupPending_remove_self]

/-- Witness for C1: a call settled by its response, the same response
re-delivered (a no-op), and an unknown-id response against a fresh
client. -/
theorem claim_C1_settled_at_most_once_witness :
    settleCount (run initState
      [Op.request "page/navigate" (JVal.obj []) true,
       Op.inbound [("id", JVal.int 1), ("result", JVal.str "ok")],
       Op.inbound [("id", JVal.int 1), ("result", JVal.str "dup")]]).2 1 ≤ 1 ∧
    (dgetOpt [("id", JVal.int 5)] "id" = some (JVal.int 5) ∧
     lookupPending initState.pending 5 = none ∧
     handleResponse initState [("id", JVal.int 5)]
       = (initState, RespOutcome.discardedUnknown)) ∧
    (let d1 : Dict := [("id", JVal.int 1), ("result", JVal.str "ok")]
     let s1 : ClientState :=
       { requestId := 1, pending := [(1, ⟨"page/navigate", FutureState.pending, true⟩)],
         initialized := true, capabilities := none, activePage := none,
         transportOpen := true }
     dgetOpt d1 "id" = some (JVal.int 1) ∧
     handleResponse (handleResponse s1 d1).1 d1
       = ((handleResponse s1 d1).1, RespOutcome.discardedUnknown)) :=
  ⟨claim_C1_settled_at_most_once.1
      [Op.request "page/navigate" (JVal.obj []) true,
       Op.inbound [("id", JVal.int 1), ("result", JVal.str "ok")],
       Op.inbound [("id", JVal.int 1), ("result", JVal.str "dup")]] 1,
   ⟨rfl, rfl, claim_C1_settled_at_most_once.2.1 initState
      [("id", JVal.int 5)] 5 rfl rfl⟩,
   ⟨rfl, claim_C1_settled_at_most_once.2.2
      { requestId := 1, pending := [(1, ⟨"page/navigate", FutureState.pending, true⟩)],
        initialized := true, capabilities := none, activePage := none,
        transportOpen := true }
      [("id", JVal.int 1), ("result", JVal.str "ok")] 1 rfl⟩⟩

end BAP
